import Mathlib

/-!
Verification development for the query_estimator backend
(src/query_estimator/backend/src/query_estimator/{types.py, parsers.py}).

The Python source is shallowly embedded: dataclasses become structures,
enums become inductive types, machine/arbitrary-precision integers become
Int, Python floats become exact rationals (the numeric values exercised
here are all exactly representable), and fallible statements become
Except-valued computations.  Python exception semantics are modelled
explicitly: a try/except block is a computation whose intermediate
variable assignments survive a later failure, exactly as in CPython.
-/

namespace QE

/-- Errors a modelled Python statement can raise.  The distinction between
the constructors mirrors the Python exception class raised; all of them are
subclasses of Exception and hence caught by the bare except blocks in
parsers.py.  fuelOut is an artifact of the embedding for recursions whose
termination is not structural; the fuel passed by every caller in this file
is large enough that it is never reached on inputs the theorems evaluate. -/
inductive PyErr where
  | valueError
  | typeError
  | attributeError
  | jsonError
  | fuelOut
deriving DecidableEq, Repr

/-- ResourceLevel enum from types.py. -/
inductive ResourceLevel where
  | LOW
  | MEDIUM
  | HIGH
  | CRITICAL
deriving DecidableEq, Repr

/-- WarningSeverity enum from types.py. -/
inductive WarningSeverity where
  | INFO
  | WARNING
  | ERROR
  | CRITICAL
deriving DecidableEq, Repr

/-- EngineType enum from types.py. -/
inductive EngineType where
  | TRINO
  | POSTGRES
  | UNKNOWN
deriving DecidableEq, Repr

/-- Warning dataclass from types.py. -/
structure Warning where
  severity : WarningSeverity
  title : String
  description : String
  recommendation : Option String := none
  affected_tables : List String := []
deriving DecidableEq, Repr

/-- PlanNode dataclass from types.py.  The details dict of the source only
ever receives the key "rows" (Trino) or the keys table/index/filter/
joinFilter/sortKey (Postgres); no claim inspects details, so the model
keeps the Trino "rows" entry (detailsRows) and drops the rest.  Numeric
fields keep the source types (rows int, cost float). -/
inductive PlanNode where
  | mk (node_type : String) (rows : Option Int) (cost : Option ℚ)
      (detailsRows : Option Int) (children : List PlanNode)

/-- EstimationMetrics dataclass from types.py. -/
structure EstimationMetrics where
  execution_time_ms : Option ℚ := none
  execution_time_label : String := "N/A"
  planning_time_ms : Option ℚ := none
  planning_time_label : String := "N/A"
  memory_bytes : Option Int := none
  memory_label : String := "N/A"
  rows_estimated : Option Int := none
  rows_label : String := "N/A"
  cost : Option ℚ := none
  cost_label : String := "N/A"
deriving DecidableEq, Repr

/-- EstimationResult dataclass from types.py. -/
structure EstimationResult where
  resource_level : ResourceLevel
  metrics : EstimationMetrics
  warnings : List Warning := []
  raw_plan : Option String := none
  plan_tree : Option PlanNode := none
  engine_type : EngineType := EngineType.UNKNOWN

/-! Threshold constants from parsers.py lines 46-60. -/

def MEMORY_THRESHOLD_CRITICAL : Int := 800 * 1024 * 1024 * 1024
def MEMORY_THRESHOLD_HIGH : Int := 200 * 1024 * 1024 * 1024
def MEMORY_THRESHOLD_MEDIUM : Int := 50 * 1024 * 1024 * 1024

def TIME_THRESHOLD_CRITICAL : ℚ := 5 * 60 * 1000
def TIME_THRESHOLD_HIGH : ℚ := 2 * 60 * 1000
def TIME_THRESHOLD_MEDIUM : ℚ := 30 * 1000

def ROWS_THRESHOLD_CRITICAL : Int := 1000000000
def ROWS_THRESHOLD_HIGH : Int := 100000000
def ROWS_THRESHOLD_MEDIUM : Int := 10000000

def COST_THRESHOLD_CRITICAL : ℚ := 10000000
def COST_THRESHOLD_HIGH : ℚ := 1000000
def COST_THRESHOLD_MEDIUM : ℚ := 100000

/-! Number rendering.  Python renders numbers into the label strings with
f-strings such as "{v:.1f}".  The model renders an exact rational with a
fixed number of decimals, rounding half to even as CPython float
formatting does.  Only two facts about the rendering are used by the
claims: it is total, and it never produces the string "N/A" (its
characters are digits, a minus sign and a decimal point). -/

/-- Round half to even, the rounding used by CPython float formatting. -/
def roundHalfEven (q : ℚ) : Int :=
  let f : Int := ⌊q⌋
  let r : ℚ := q - f
  if r > 1/2 then f + 1
  else if r < 1/2 then f
  else if f % 2 = 0 then f else f + 1

/-- Render a natural number in base 10 (the digits of Nat.repr). -/
def natStr (n : Nat) : String := Nat.repr n

/-- Render an integer in base 10 the way Python str does. -/
def intStr (n : Int) : String :=
  if n < 0 then "-" ++ natStr n.natAbs else natStr n.natAbs

/-- Left-pad a string with zeros to the given width. -/
def padZeros (s : String) (w : Nat) : String :=
  String.mk (List.replicate (w - s.length) '0') ++ s

/-- Model of the Python f-string "{q:.prec f}": fixed-point rendering of a
rational with prec decimals, rounding half to even. -/
def fmtFixed (q : ℚ) (prec : Nat) : String :=
  let scaled : Int := roundHalfEven (q * (10 : ℚ) ^ prec)
  let sign : String := if scaled < 0 then "-" else ""
  let a : Nat := scaled.natAbs
  if prec = 0 then sign ++ natStr a
  else sign ++ natStr (a / 10 ^ prec) ++ "." ++ padZeros (natStr (a % 10 ^ prec)) prec

/-- format_bytes from parsers.py lines 63-76. -/
def format_bytes : Option Int → String
  | none => "N/A"
  | some bytes_val =>
    if bytes_val < 1024 then intStr bytes_val ++ " B"
    else if bytes_val < 1024 ^ 2 then fmtFixed (bytes_val / (1024 : ℚ)) 1 ++ " KB"
    else if bytes_val < 1024 ^ 3 then fmtFixed (bytes_val / (1024 : ℚ) ^ 2) 1 ++ " MB"
    else if bytes_val < 1024 ^ 4 then fmtFixed (bytes_val / (1024 : ℚ) ^ 3) 1 ++ " GB"
    else fmtFixed (bytes_val / (1024 : ℚ) ^ 4) 1 ++ " TB"

/-- format_rows from parsers.py lines 79-90. -/
def format_rows : Option Int → String
  | none => "N/A"
  | some rows =>
    if rows < 1000 then intStr rows
    else if rows < 1000000 then fmtFixed (rows / (1000 : ℚ)) 1 ++ "K"
    else if rows < 1000000000 then fmtFixed (rows / (1000000 : ℚ)) 1 ++ "M"
    else fmtFixed (rows / (1000000000 : ℚ)) 1 ++ "B"

/-- format_time_ms from parsers.py lines 93-106. -/
def format_time_ms : Option ℚ → String
  | none => "N/A"
  | some ms =>
    if ms < 1 then "< 1 ms"
    else if ms < 1000 then fmtFixed ms 1 ++ " ms"
    else if ms < 60000 then fmtFixed (ms / 1000) 2 ++ " sec"
    else if ms < 3600000 then fmtFixed (ms / 60000) 1 ++ " min"
    else fmtFixed (ms / 3600000) 1 ++ " hr"

/-- format_cost from parsers.py lines 109-118. -/
def format_cost : Option ℚ → String
  | none => "N/A"
  | some cost =>
    if cost < 1000 then fmtFixed cost 0
    else if cost < 1000000 then fmtFixed (cost / 1000) 1 ++ "K"
    else fmtFixed (cost / 1000000) 1 ++ "M"

/-- Magnitude bracket (unit tier) selected by format_bytes, following the
same branch conditions: 0 = B, 1 = KB, 2 = MB, 3 = GB, 4 = TB. -/
def format_bytes_bracket (bytes_val : Int) : Nat :=
  if bytes_val < 1024 then 0
  else if bytes_val < 1024 ^ 2 then 1
  else if bytes_val < 1024 ^ 3 then 2
  else if bytes_val < 1024 ^ 4 then 3
  else 4

/-- Magnitude bracket selected by format_rows: 0 = plain, 1 = K, 2 = M, 3 = B. -/
def format_rows_bracket (rows : Int) : Nat :=
  if rows < 1000 then 0
  else if rows < 1000000 then 1
  else if rows < 1000000000 then 2
  else 3

/-- Magnitude bracket selected by format_time_ms:
0 = sub-millisecond, 1 = ms, 2 = sec, 3 = min, 4 = hr. -/
def format_time_ms_bracket (ms : ℚ) : Nat :=
  if ms < 1 then 0
  else if ms < 1000 then 1
  else if ms < 60000 then 2
  else if ms < 3600000 then 3
  else 4

/-- Magnitude bracket selected by format_cost: 0 = plain, 1 = K, 2 = M. -/
def format_cost_bracket (cost : ℚ) : Nat :=
  if cost < 1000 then 0
  else if cost < 1000000 then 1
  else 2

/-- deduplicate_warnings from parsers.py lines 121-129: keep the first
warning carrying each title.  The seen-titles set is modelled by the list
of titles already kept. -/
def deduplicate_warnings (warnings : List Warning) : List Warning :=
  (warnings.foldl
    (fun acc w => if (acc.map Warning.title).contains w.title then acc else acc ++ [w])
    ([] : List Warning))

/-- Memory block of calculate_resource_level (parsers.py lines 139-146):
some level when the metric is present and exceeds a threshold (the early
return), none when it is absent or present-but-under-threshold (in both
cases control falls to the next block). -/
def levelOfMemory : Option Int → Option ResourceLevel
  | none => none
  | some m =>
    if m > MEMORY_THRESHOLD_CRITICAL then some ResourceLevel.CRITICAL
    else if m > MEMORY_THRESHOLD_HIGH then some ResourceLevel.HIGH
    else if m > MEMORY_THRESHOLD_MEDIUM then some ResourceLevel.MEDIUM
    else none

/-- Time block of calculate_resource_level (parsers.py lines 148-155). -/
def levelOfTime : Option ℚ → Option ResourceLevel
  | none => none
  | some t =>
    if t > TIME_THRESHOLD_CRITICAL then some ResourceLevel.CRITICAL
    else if t > TIME_THRESHOLD_HIGH then some ResourceLevel.HIGH
    else if t > TIME_THRESHOLD_MEDIUM then some ResourceLevel.MEDIUM
    else none

/-- Rows block of calculate_resource_level (parsers.py lines 157-164). -/
def levelOfRows : Option Int → Option ResourceLevel
  | none => none
  | some r =>
    if r > ROWS_THRESHOLD_CRITICAL then some ResourceLevel.CRITICAL
    else if r > ROWS_THRESHOLD_HIGH then some ResourceLevel.HIGH
    else if r > ROWS_THRESHOLD_MEDIUM then some ResourceLevel.MEDIUM
    else none

/-- Cost block of calculate_resource_level (parsers.py lines 166-173). -/
def levelOfCost : Option ℚ → Option ResourceLevel
  | none => none
  | some c =>
    if c > COST_THRESHOLD_CRITICAL then some ResourceLevel.CRITICAL
    else if c > COST_THRESHOLD_HIGH then some ResourceLevel.HIGH
    else if c > COST_THRESHOLD_MEDIUM then some ResourceLevel.MEDIUM
    else none

/-- calculate_resource_level from parsers.py lines 132-175: the category
blocks are evaluated in order memory, time, rows, cost; the first block
that returns ends the function, and reaching the end yields LOW. -/
def calculate_resource_level
    (rows : Option Int := none)
    (time_ms : Option ℚ := none)
    (memory_bytes : Option Int := none)
    (cost : Option ℚ := none) : ResourceLevel :=
  match levelOfMemory memory_bytes with
  | some l => l
  | none =>
    match levelOfTime time_ms with
    | some l => l
    | none =>
      match levelOfRows rows with
      | some l => l
      | none =>
        match levelOfCost cost with
        | some l => l
        | none => ResourceLevel.LOW

/-! Model of the dynamically typed Python values flowing through the
parsers: the explain_output argument (driver rows, JSON-decoded plans) and
everything read out of it.  JSON-decoded data only ever contains these
shapes.  Python ints and floats are kept distinct (jint vs jnum). -/

inductive JVal where
  | jnull
  | jbool (b : Bool)
  | jint (n : Int)
  | jnum (q : ℚ)
  | jstr (s : String)
  | jarr (xs : List JVal)
  | jobj (fields : List (String × JVal))

/-- First binding of a key in a dict modelled as an association list
(JSON objects produced by decoding have distinct keys). -/
def lookupField : List (String × JVal) → String → Option JVal
  | [], _ => none
  | (k, v) :: rest, key => if k = key then some v else lookupField rest key

/-- Python isinstance(x, dict). -/
def isDict : JVal → Bool
  | .jobj _ => true
  | _ => false

/-- Python isinstance(x, list). -/
def isList : JVal → Bool
  | .jarr _ => true
  | _ => false

/-- Python isinstance(x, str). -/
def isStr : JVal → Bool
  | .jstr _ => true
  | _ => false

/-- Python key-membership test (key in node) on a dict value; a key mapped
to null counts as present. -/
def hasKey (node : JVal) (key : String) : Bool :=
  match node with
  | .jobj fields => (lookupField fields key).isSome
  | _ => false

/-- Python node.get(key, default) on a dict value: the stored value when
the key is present (even when that value is null), the default otherwise. -/
def jgetD (node : JVal) (key : String) (d : JVal) : JVal :=
  match node with
  | .jobj fields =>
    match lookupField fields key with
    | some v => v
    | none => d
  | _ => .jnull

/-- Python node.get(key) on a dict value, as consumed by code that only
asks is-not-None or truthiness afterwards: a missing key and a key mapped
to JSON null both give Python None, so they are identified here. -/
def jgetOpt (node : JVal) (key : String) : Option JVal :=
  match node with
  | .jobj fields =>
    match lookupField fields key with
    | some .jnull => none
    | some v => some v
    | none => none
  | _ => none

/-- Python truthiness of a JSON-shaped value. -/
def truthy : JVal → Bool
  | .jnull => false
  | .jbool b => b
  | .jint n => n != 0
  | .jnum q => q != 0
  | .jstr s => s != ""
  | .jarr xs => !xs.isEmpty
  | .jobj fields => !fields.isEmpty

/-- Truncation toward zero, the behavior of Python int() on a float. -/
def pyTrunc (q : ℚ) : Int := if q < 0 then -(Int.floor (-q)) else Int.floor q

/-- Python int(s) on a string: optional surrounding whitespace, optional
sign, then at least one decimal digit (underscore grouping is not
modelled); anything else raises ValueError. -/
def pyIntOfString (s : String) : Except PyErr Int :=
  let cs := (s.toList.dropWhile (fun c => c.isWhitespace)).reverse
  let cs := (cs.dropWhile (fun c => c.isWhitespace)).reverse
  let (neg, digits) :=
    match cs with
    | '-' :: rest => (true, rest)
    | '+' :: rest => (false, rest)
    | rest => (false, rest)
  if digits ≠ [] ∧ digits.all (fun c => c.isDigit) then
    let n : Nat := digits.foldl (fun acc c => acc * 10 + (c.toNat - 48)) 0
    .ok (if neg then -(n : Int) else (n : Int))
  else .error .valueError

/-- Python int(x): ints pass through, booleans become 0 or 1, floats
truncate toward zero, numeric strings are parsed, everything else raises
(TypeError for non-strings, ValueError for bad strings). -/
def pyInt : JVal → Except PyErr Int
  | .jint n => .ok n
  | .jbool b => .ok (if b then 1 else 0)
  | .jnum q => .ok (pyTrunc q)
  | .jstr s => pyIntOfString s
  | _ => .error .typeError

/-- Python float(s) on a string made of digits and dots, the only shape
the Trino memory regex can capture: at least one digit and at most one
dot; otherwise ValueError.  (Full float literal syntax is not needed:
the captured text matches the character class [0-9.].) -/
def pyFloatOfDotString (s : String) : Except PyErr ℚ :=
  let cs := s.toList
  let intPart := cs.takeWhile (fun c => c.isDigit)
  let rest := cs.drop intPart.length
  let parse (ip fp : List Char) : ℚ :=
    let n : Nat := ip.foldl (fun acc c => acc * 10 + (c.toNat - 48)) 0
    let f : Nat := fp.foldl (fun acc c => acc * 10 + (c.toNat - 48)) 0
    (n : ℚ) + (f : ℚ) / ((10 : ℚ) ^ fp.length)
  match rest with
  | [] => if intPart = [] then .error .valueError else .ok (parse intPart [])
  | '.' :: frac =>
    if frac.all (fun c => c.isDigit) ∧ (intPart ≠ [] ∨ frac ≠ []) then
      .ok (parse intPart frac)
    else .error .valueError
  | _ => .error .valueError

/-- Numeric value of a Python object as used by comparisons against
numbers and by "{x:.nf}" formatting: bool, int and float are numeric;
anything else raises TypeError at the first comparison. -/
def jNum : JVal → Except PyErr ℚ
  | .jbool b => .ok (if b then 1 else 0)
  | .jint n => .ok (n : ℚ)
  | .jnum q => .ok q
  | _ => .error .typeError

/-- Numeric value of an optional Python object (None stays absent). -/
def jNumOpt : Option JVal → Except PyErr (Option ℚ)
  | none => .ok none
  | some v => (jNum v).map some

/-- Python for-loop iteration over a value: lists yield their elements,
strings their characters, dicts their keys; anything else raises
TypeError. -/
def pyIterElems : JVal → Except PyErr (List JVal)
  | .jarr xs => .ok xs
  | .jstr s => .ok (s.toList.map (fun c => JVal.jstr (String.mk [c])))
  | .jobj fields => .ok (fields.map (fun kv => JVal.jstr kv.1))
  | _ => .error .typeError

mutual

/-- Size of a JVal, used to pick an always-sufficient fuel for recursions
that walk a decoded plan (the recursion depth never exceeds it). -/
def jsize : JVal → Nat
  | .jnull => 1
  | .jbool _ => 1
  | .jint _ => 1
  | .jnum _ => 1
  | .jstr _ => 1
  | .jarr xs => 1 + jsizeList xs
  | .jobj fields => 1 + jsizeFields fields

/-- Total size of a list of JVals. -/
def jsizeList : List JVal → Nat
  | [] => 0
  | x :: xs => jsize x + jsizeList xs

/-- Total size of the values of an association list of JVals. -/
def jsizeFields : List (String × JVal) → Nat
  | [] => 0
  | (_, v) :: fields => jsize v + jsizeFields fields

end

/-- Rendering of a Python value by str(), used only to produce the plan
text handed to the Trino text parser when the driver returns non-string
cells; no claim depends on the exact rendering of non-string values. -/
def jToPyStr : JVal → String
  | .jnull => "None"
  | .jbool b => if b then "True" else "False"
  | .jint n => intStr n
  | .jnum q => fmtFixed q 1
  | .jstr s => s
  | .jarr _ => "[...]"
  | .jobj _ => "\x7b...\x7d"

/-- Test whether pat is a leading segment of text. -/
def listStartsWith (pat text : List Char) : Bool :=
  match pat, text with
  | [], _ => true
  | _ :: _, [] => false
  | p :: ps, t :: ts => p == t && listStartsWith ps ts

/-- Test whether pat occurs contiguously anywhere in text. -/
def listContainsSub (text pat : List Char) : Bool :=
  match text with
  | [] => pat.isEmpty
  | _ :: rest => listStartsWith pat text || listContainsSub rest pat

/-- Case-sensitive substring containment, Python "pat in text". -/
def containsSub (text pat : String) : Bool :=
  listContainsSub text.toList pat.toList

/-- Case-insensitive substring containment (re.search of a plain word
under re.IGNORECASE). -/
def ciContainsSub (text pat : String) : Bool :=
  listContainsSub (text.toList.map Char.toLower) (pat.toList.map Char.toLower)

/-! Models of the specific regular expressions used by TrinoParser.  Each
Python pattern is compiled here into a direct scanning function with the
same leftmost-match, ordered-alternation, greedy/lazy semantics on the
character classes actually present in the pattern. -/

/-- Characters matched by the regex class backslash-s. -/
def isPySpace (c : Char) : Bool :=
  c == ' ' || c == '\t' || c == '\n' || c == '\r' || c == '\x0b' || c == '\x0c'

/-- Case-insensitive version of listStartsWith. -/
def ciStartsWith (pat text : List Char) : Bool :=
  match pat, text with
  | [], _ => true
  | _ :: _, [] => false
  | p :: ps, t :: ts => p.toLower == t.toLower && ciStartsWith ps ts

/-- Ordered alternation (B|KB|MB|GB|TB) under re.IGNORECASE: the first
alternative that matches at the current position wins; the result is the
matched unit uppercased (the source applies .upper() to the group). -/
def memUnitAt (cs : List Char) : Option String :=
  if ciStartsWith "B".toList cs then some "B"
  else if ciStartsWith "KB".toList cs then some "KB"
  else if ciStartsWith "MB".toList cs then some "MB"
  else if ciStartsWith "GB".toList cs then some "GB"
  else if ciStartsWith "TB".toList cs then some "TB"
  else none

/-- Continuation of the memory pattern after its keyword: one of = or :,
then \s*, then a greedy nonempty [0-9.]+ capture, then \s*, then the unit
alternation.  Greedy backtracking cannot rescue a failed unit match here
(giving back digit/dot characters never produces a unit letter), so the
direct greedy scan is exact. -/
def memMatchRest (cs : List Char) : Option (String × String) :=
  match cs with
  | c :: rest =>
    if c == '=' || c == ':' then
      let afterWS := rest.dropWhile isPySpace
      let run := afterWS.takeWhile (fun ch => ch.isDigit || ch == '.')
      if run.isEmpty then none
      else
        match memUnitAt ((afterWS.drop run.length).dropWhile isPySpace) with
        | some u => some (String.mk run, u)
        | none => none
    else none
  | [] => none

/-- re.search of (?:Memory|estimatedMemory)[=:]\s*([0-9.]+)\s*(B|KB|MB|GB|TB)
with re.IGNORECASE (parsers.py lines 286-290): leftmost position at which
either keyword alternative followed by the rest of the pattern matches;
returns the captured value text and the uppercased unit. -/
def memSearch : List Char → Option (String × String)
  | [] => none
  | c :: rest =>
    let here :=
      if ciStartsWith "Memory".toList (c :: rest) then
        memMatchRest ((c :: rest).drop 6)
      else none
    match here with
    | some r => some r
    | none =>
      let here2 :=
        if ciStartsWith "estimatedMemory".toList (c :: rest) then
          memMatchRest ((c :: rest).drop 15)
        else none
      match here2 with
      | some r => some r
      | none => memSearch rest

/-- Byte multiplier for a memory unit (parsers.py line 294). -/
def memMultiplier (unit : String) : Int :=
  if unit = "B" then 1
  else if unit = "KB" then 1024
  else if unit = "MB" then 1024 ^ 2
  else if unit = "GB" then 1024 ^ 3
  else if unit = "TB" then 1024 ^ 4
  else 1

/-- Continuation of a keyword-number pattern after its keyword: one of =
or :, then \s*, then a greedy nonempty [0-9,]+ capture. -/
def keyNumMatchRest (cs : List Char) : Option String :=
  match cs with
  | c :: rest =>
    if c == '=' || c == ':' then
      let afterWS := rest.dropWhile isPySpace
      let run := afterWS.takeWhile (fun ch => ch.isDigit || ch == ',')
      if run.isEmpty then none else some (String.mk run)
    else none
  | [] => none

/-- re.search of (?:kw1|kw2|...)[=:]\s*([0-9,]+) under re.IGNORECASE for a
fixed keyword list, e.g. rows|estimatedRows (parsers.py line 298) and the
plain rows pattern of parse_node_type (line 350): leftmost position where
some keyword alternative followed by the rest matches. -/
def keyNumSearch (keys : List String) : List Char → Option String
  | [] => none
  | c :: rest =>
    let tryHere := keys.foldl
      (fun acc k =>
        match acc with
        | some r => some r
        | none =>
          if ciStartsWith k.toList (c :: rest) then
            keyNumMatchRest ((c :: rest).drop k.length)
          else none)
      none
    match tryHere with
    | some r => some r
    | none => keyNumSearch keys rest

/-- Python int(group.replace(",", "")) on a [0-9,]+ capture: commas are
stripped; an all-comma capture leaves the empty string, which int()
rejects with ValueError. -/
def intOfCommaRun (s : String) : Except PyErr Int :=
  let digits := s.toList.filter (fun c => c != ',')
  if digits.isEmpty then .error .valueError
  else .ok ((digits.foldl (fun acc c => acc * 10 + (c.toNat - 48)) 0 : Nat) : Int)

/-- Match of table\s*=\s*(\S+) at the current position (case-sensitive),
returning the captured greedy \S+ run and the remainder after the match. -/
def tableScanTableAt (cs : List Char) : Option (String × List Char) :=
  if listStartsWith "table".toList cs then
    let cs2 := (cs.drop 5).dropWhile isPySpace
    match cs2 with
    | '=' :: cs3 =>
      let cs4 := cs3.dropWhile isPySpace
      let run := cs4.takeWhile (fun ch => ¬ isPySpace ch)
      if run.isEmpty then none else some (String.mk run, cs4.drop run.length)
    | _ => none
  else none

/-- Lazy .*? scan inside TableScan[.*?table\s*=\s*(\S+): advance one
non-newline character at a time, at each position first trying the tail of
the pattern; a newline stops the scan because the dot does not match it. -/
def lazyFindTable : List Char → Option (String × List Char)
  | [] => none
  | c :: rest =>
    match tableScanTableAt (c :: rest) with
    | some r => some r
    | none => if c == '\n' then none else lazyFindTable rest

/-- re.findall of TableScan\[.*?table\s*=\s*(\S+) (parsers.py line 304):
non-overlapping leftmost matches, scanning resuming after each full match;
a failed attempt resumes scanning one character later.  The fuel is the
text length, which bounds the number of scanning steps. -/
def tsFindallGo : Nat → List Char → List String
  | 0, _ => []
  | fuel + 1, cs =>
    match cs with
    | [] => []
    | _ :: rest =>
      if listStartsWith "TableScan[".toList cs then
        match lazyFindTable (cs.drop 10) with
        | some (tbl, remaining) => tbl :: tsFindallGo fuel remaining
        | none => tsFindallGo fuel rest
      else tsFindallGo fuel rest

/-- All table identifiers captured by the TableScan findall. -/
def tsFindall (s : String) : List String := tsFindallGo (s.length + 1) s.toList

/-! TrinoParser (parsers.py lines 192-467). -/

/-- Warning appended for a cross join (parsers.py lines 318-326). -/
def cartesianJoinWarning : Warning :=
  ⟨WarningSeverity.CRITICAL, "Cartesian Join",
    "Cross join detected. This produces a cartesian product.",
    some "Add join conditions to reduce row explosion.", []⟩

/-- Warning appended for a table scan without filter pushdown
(parsers.py lines 307-315). -/
def fullTableScanWarning (tables : List String) : Warning :=
  ⟨WarningSeverity.WARNING, "Full Table Scan",
    "No filter pushdown detected on table scan.",
    some "Add WHERE clause on partition column.", tables⟩

/-- Memory extraction of TrinoParser._parse_trino_plan (parsers.py lines
285-295); float() on a capture with several dots raises ValueError. -/
def parseTrinoMemory (cs : List Char) : Except PyErr (Option Int) :=
  match memSearch cs with
  | none => pure none
  | some (valStr, unit) => do
    let value ← pyFloatOfDotString valStr
    pure (some (pyTrunc (value * (memMultiplier unit : ℚ))))

/-- Rows extraction of TrinoParser._parse_trino_plan (parsers.py lines
297-300). -/
def parseTrinoRows (cs : List Char) : Except PyErr (Option Int) :=
  match keyNumSearch ["rows", "estimatedRows"] cs with
  | none => pure none
  | some run => do
    let n ← intOfCommaRun run
    pure (some n)

/-- Warning stage of TrinoParser._parse_trino_plan (parsers.py lines
302-326). -/
def parseTrinoWarnStage (plan_str : String) (warnings : List Warning) : List Warning :=
  let warnings :=
    if containsSub plan_str "TableScan" then
      let table_matches := tsFindall plan_str
      if ¬ table_matches.isEmpty ∧
          ¬ (ciContainsSub plan_str "filterPredicate" ∨ ciContainsSub plan_str "constraint") then
        warnings ++ [fullTableScanWarning (table_matches.take 3)]
      else warnings
    else warnings
  if containsSub plan_str "CrossJoin" then warnings ++ [cartesianJoinWarning]
  else warnings

/-- TrinoParser._parse_trino_plan (parsers.py lines 276-328) assembled
from its three stages: the two numeric extractions run first and can
raise (int() on an all-comma capture likewise raises ValueError); the
structural warnings are appended only afterwards, so a raise leaves the
warnings list untouched. -/
def parseTrinoPlan (plan_str : String) (warnings : List Warning) :
    Except PyErr (Option Int × Option Int × List Warning) := do
  let memory_bytes ← parseTrinoMemory plan_str.toList
  let rows ← parseTrinoRows plan_str.toList
  pure (memory_bytes, rows, parseTrinoWarnStage plan_str warnings)

/-- TrinoParser._extract_plan_text (parsers.py lines 256-274). -/
def extractPlanText (explain_output : JVal) : String :=
  match explain_output with
  | .jstr s => s
  | .jarr (first :: _) =>
    match first with
    | .jobj fields =>
      (match lookupField fields "Query Plan" with
       | some v => jToPyStr v
       | none =>
         match lookupField fields "QUERY PLAN" with
         | some v => jToPyStr v
         | none =>
           match lookupField fields "query plan" with
           | some v => jToPyStr v
           | none =>
             match fields with
             | (_, v) :: _ => jToPyStr v
             | [] => jToPyStr explain_output)
    | .jstr s => s
    | _ => jToPyStr explain_output
  | _ => jToPyStr explain_output

/-- Python str.strip() on both ends. -/
def pyStrip (s : String) : String :=
  String.mk
    (((s.toList.dropWhile (fun c => c.isWhitespace)).reverse.dropWhile
      (fun c => c.isWhitespace)).reverse)

/-- get_indent of _build_plan_tree (parsers.py lines 341-342). -/
def getIndent (line : String) : Nat :=
  line.length - (line.toList.dropWhile (fun c => c.isWhitespace)).length

/-- Fallback branch of parse_node_type (parsers.py line 362):
line.split("[")[0].split("(")[0].strip().lstrip("- "). -/
def nodeTypeFallback (stripped : List Char) : String :=
  let a := stripped.takeWhile (fun c => c != '[')
  let b := a.takeWhile (fun c => c != '(')
  let c :=
    ((b.dropWhile (fun ch => ch.isWhitespace)).reverse.dropWhile
      (fun ch => ch.isWhitespace)).reverse
  String.mk (c.dropWhile (fun ch => ch == '-' || ch == ' '))

/-- Completion test of the lazy capture in the node-type pattern: the
pattern ends with (?:\[|$|\s*\() so the capture completes at an immediate
open bracket, at the end of the line, or at whitespace followed by an
open parenthesis. -/
def nodeMatchDone (cs : List Char) : Bool :=
  match cs with
  | [] => true
  | '[' :: _ => true
  | _ =>
    match cs.dropWhile isPySpace with
    | '(' :: _ => true
    | _ => false

/-- Lazy extension of the [A-Za-z0-9\s]*? capture: the shortest capture
whose continuation completes; a character outside the class before any
completion point fails the whole match. -/
def nodeMatchLazy (cap : List Char) (rest : List Char) : Option (List Char) :=
  if nodeMatchDone rest then some cap
  else
    match rest with
    | c :: cs =>
      if c.isAlpha || c.isDigit || isPySpace c then nodeMatchLazy (cap ++ [c]) cs
      else none
    | [] => none
termination_by rest.length
decreasing_by simp_wf

/-- re.match of [-\s]*([A-Za-z][A-Za-z0-9\s]*?)(?:\[|$|\s*\() on the
stripped line, falling back to the split-based extraction when it fails,
then applying the "or Unknown" default (parse_node_type, parsers.py
lines 354-364). -/
def parseNodeTypeCore (stripped : List Char) : String :=
  let fallback :=
    let f := nodeTypeFallback stripped
    if f = "" then "Unknown" else f
  let afterSkip := stripped.dropWhile (fun c => c == '-' || isPySpace c)
  match afterSkip with
  | c :: cs =>
    if c.isAlpha then
      match nodeMatchLazy [c] cs with
      | some cap =>
        let t := pyStrip (String.mk cap)
        if t = "" then "Unknown" else t
      | none => fallback
    else fallback
  | [] => fallback

/-- parse_node_type of _build_plan_tree (parsers.py lines 344-364): the
rows extraction runs first and can raise int() ValueError; the node type
never raises. -/
def parseNodeType (line : String) : Except PyErr (String × Option Int) := do
  let stripped := pyStrip line
  let cs := stripped.toList
  let rows : Option Int ←
    match keyNumSearch ["rows"] cs with
    | none => pure none
    | some run => do
      let n ← intOfCommaRun run
      pure (some n)
  pure (parseNodeTypeCore cs, rows)

/-- build_tree of _build_plan_tree (parsers.py lines 366-408): the while
loop with its recursive descent, driven by indentation.  The fuel bounds
the number of loop steps; every caller passes more fuel than the loop can
consume (each step either returns or advances the line index). -/
def btLoop (lines : List String) :
    Nat → Nat → Nat → Int → List PlanNode → Except PyErr (List PlanNode × Nat)
  | 0, _, _, _, _ => .error .fuelOut
  | fuel + 1, startIdx, idx, parentIndent, nodes =>
    if idx < lines.length then
      let line := lines.getD idx ""
      if pyStrip line = "" then btLoop lines fuel startIdx (idx + 1) parentIndent nodes
      else
        let indent : Int := getIndent line
        if indent ≤ parentIndent ∧ idx > startIdx then .ok (nodes, idx)
        else do
          let tr ← parseNodeType line
          if idx + 1 < lines.length then
            let nextLine := lines.getD (idx + 1) ""
            let nextIndent : Int :=
              if ¬ (pyStrip nextLine = "") then getIndent nextLine else indent
            if nextIndent > indent then do
              let cr ← btLoop lines fuel (idx + 1) (idx + 1) indent []
              btLoop lines fuel startIdx cr.2 parentIndent
                (nodes ++ [PlanNode.mk tr.1 tr.2 none tr.2 cr.1])
            else
              btLoop lines fuel startIdx (idx + 1) parentIndent
                (nodes ++ [PlanNode.mk tr.1 tr.2 none tr.2 []])
          else
            btLoop lines fuel startIdx (idx + 1) parentIndent
              (nodes ++ [PlanNode.mk tr.1 tr.2 none tr.2 []])
    else .ok (nodes, idx)

/-- TrinoParser._build_plan_tree (parsers.py lines 330-419). -/
def buildPlanTree (plan_str : String) : Except PyErr (Option PlanNode) := do
  let lines := (pyStrip plan_str).splitOn "\n"
  if lines.isEmpty then pure none
  else do
    let r ← btLoop lines (2 * lines.length + 4) 0 0 (-1) []
    match r.1 with
    | [] => pure none
    | [n] => pure (some n)
    | ns => pure (some (PlanNode.mk "Query" none none none ns))

/-- Warnings of TrinoParser._generate_threshold_warnings (parsers.py
lines 429-465). -/
def excessiveMemoryWarning (m : Int) : Warning :=
  ⟨WarningSeverity.CRITICAL, "Excessive Memory Estimate",
    "Estimated memory usage: " ++ format_bytes (some m) ++ ".",
    some "Add filters to reduce data volume or break into smaller queries.", []⟩

/-- High-memory warning of TrinoParser._generate_threshold_warnings. -/
def highMemoryWarning (m : Int) : Warning :=
  ⟨WarningSeverity.WARNING, "High Memory Estimate",
    "Estimated memory usage: " ++ format_bytes (some m) ++ ".",
    some "Consider optimizing to reduce memory consumption.", []⟩

/-- Critical result-size warning shared by both parsers. -/
def veryLargeResultWarning (r : Int) : Warning :=
  ⟨WarningSeverity.CRITICAL, "Very Large Result Set",
    "Planner estimates " ++ format_rows (some r) ++ " rows.",
    some "Add WHERE clause or LIMIT to reduce result size.", []⟩

/-- Non-critical result-size warning shared by both parsers. -/
def largeResultWarning (r : Int) : Warning :=
  ⟨WarningSeverity.WARNING, "Large Result Set",
    "Planner estimates " ++ format_rows (some r) ++ " rows.",
    some "Consider if all rows are needed.", []⟩

/-- TrinoParser._generate_threshold_warnings (parsers.py lines 421-467).
The Python conditions use truthiness, so a metric equal to 0 behaves like
an absent one. -/
def generateThresholdWarningsTrino (memory_bytes rows : Option Int) : List Warning :=
  let ws : List Warning := []
  let ws :=
    match memory_bytes with
    | some m =>
      if m ≠ 0 ∧ m > MEMORY_THRESHOLD_CRITICAL then ws ++ [excessiveMemoryWarning m]
      else if m ≠ 0 ∧ m > MEMORY_THRESHOLD_HIGH then ws ++ [highMemoryWarning m]
      else ws
    | none => ws
  match rows with
  | some r =>
    if r ≠ 0 ∧ r > ROWS_THRESHOLD_CRITICAL then ws ++ [veryLargeResultWarning r]
    else if r ≠ 0 ∧ r > ROWS_THRESHOLD_HIGH then ws ++ [largeResultWarning r]
    else ws
  | none => ws

/-- State of the local variables of TrinoParser.parse at the end of its
try/except block.  failed is bookkeeping of the embedding recording that
an exception was caught; it does not influence the produced result. -/
structure TrinoTryState where
  memory_bytes : Option Int
  rows : Option Int
  warnings : List Warning
  plan_tree : Option PlanNode
  failed : Bool

/-- Try/except block of TrinoParser.parse (parsers.py lines 212-221) with
CPython assignment semantics: a raise inside _parse_trino_plan leaves
memory, rows and warnings at their initial values (its own appends all
happen after its possible raises), and a raise inside _build_plan_tree
keeps the already assigned memory, rows and warnings. -/
def trinoTry (explain_output : JVal) : TrinoTryState :=
  let plan_str := extractPlanText explain_output
  if plan_str = "" then ⟨none, none, [], none, false⟩
  else
    match parseTrinoPlan plan_str [] with
    | .error _ => ⟨none, none, [], none, true⟩
    | .ok (m, r, ws) =>
      match buildPlanTree plan_str with
      | .error _ => ⟨m, r, ws, none, true⟩
      | .ok t => ⟨m, r, ws, t, false⟩

/-- TrinoParser.parse (parsers.py lines 206-254).  Everything after the
try/except block is total, so parse itself never raises. -/
def trinoParse (explain_output : JVal) (raw_plan : String) : EstimationResult :=
  let st := trinoTry explain_output
  let metrics : EstimationMetrics :=
    { memory_bytes := st.memory_bytes
      memory_label := format_bytes st.memory_bytes
      rows_estimated := st.rows
      rows_label := format_rows st.rows }
  let warnings := st.warnings ++ generateThresholdWarningsTrino st.memory_bytes st.rows
  let warnings := deduplicate_warnings warnings
  let resource_level := calculate_resource_level st.rows none st.memory_bytes none
  ⟨resource_level, metrics, warnings, some raw_plan, st.plan_tree, EngineType.TRINO⟩

/-! Model of Python json.loads, used by PostgresParser._extract_plan_json.
Standard JSON grammar with objects, arrays, strings with the usual escape
sequences, numbers with optional fraction and exponent, and the three
literals.  Integral numbers without fraction or exponent decode to Python
int, others to float, as in CPython.  Lenient corners of the real decoder
(NaN/Infinity literals, surrogate pairs) are not modelled; no claim
depends on them. -/

/-- JSON whitespace skip. -/
def jsonSkipWS (cs : List Char) : List Char :=
  cs.dropWhile (fun c => c == ' ' || c == '\t' || c == '\n' || c == '\r')

/-- Numeric value of a list of decimal digit characters. -/
def digitsVal (ds : List Char) : Nat :=
  ds.foldl (fun acc c => acc * 10 + (c.toNat - 48)) 0

/-- Value of a hexadecimal digit character, 16 when not one. -/
def hexVal (c : Char) : Nat :=
  if c.isDigit then c.toNat - 48
  else if 'a' ≤ c ∧ c ≤ 'f' then c.toNat - 87
  else if 'A' ≤ c ∧ c ≤ 'F' then c.toNat - 55
  else 16

/-- Body of a JSON string after the opening quote: content and remainder
after the closing quote. -/
def jsonStringGo : Nat → List Char → Except PyErr (List Char × List Char)
  | 0, _ => .error .fuelOut
  | fuel + 1, cs =>
    match cs with
    | [] => .error .jsonError
    | '"' :: rest => .ok ([], rest)
    | '\\' :: 'u' :: a :: b :: c :: d :: rest =>
      if hexVal a < 16 ∧ hexVal b < 16 ∧ hexVal c < 16 ∧ hexVal d < 16 then do
        let sr ← jsonStringGo fuel rest
        .ok (Char.ofNat (((hexVal a * 16 + hexVal b) * 16 + hexVal c) * 16 + hexVal d) :: sr.1,
          sr.2)
      else .error .jsonError
    | '\\' :: e :: rest =>
      let mapped : Option Char :=
        if e == '"' then some '"'
        else if e == '\\' then some '\\'
        else if e == '/' then some '/'
        else if e == 'b' then some '\x08'
        else if e == 'f' then some '\x0c'
        else if e == 'n' then some '\n'
        else if e == 'r' then some '\r'
        else if e == 't' then some '\t'
        else none
      match mapped with
      | some ch => do
        let sr ← jsonStringGo fuel rest
        .ok (ch :: sr.1, sr.2)
      | none => .error .jsonError
    | c :: rest => do
      let sr ← jsonStringGo fuel rest
      .ok (c :: sr.1, sr.2)

/-- Optional exponent part of a JSON number. -/
def jsonExp (cs : List Char) : Except PyErr (Option Int × List Char) :=
  match cs with
  | c :: rest =>
    if c == 'e' || c == 'E' then
      let sr : Int × List Char :=
        match rest with
        | '+' :: r => (1, r)
        | '-' :: r => (-1, r)
        | r => (1, r)
      let ds := sr.2.takeWhile (fun ch => ch.isDigit)
      if ds.isEmpty then .error .jsonError
      else .ok (some (sr.1 * (digitsVal ds : Int)), sr.2.drop ds.length)
    else .ok (none, cs)
  | [] => .ok (none, [])

/-- JSON number at the current position: int when it has neither fraction
nor exponent, float otherwise. -/
def jsonNumber (cs : List Char) : Except PyErr (JVal × List Char) :=
  let sr : Bool × List Char :=
    match cs with
    | '-' :: r => (true, r)
    | r => (false, r)
  let ip := sr.2.takeWhile (fun c => c.isDigit)
  if ip.isEmpty then .error .jsonError
  else
    let cs2 := sr.2.drop ip.length
    let n : ℚ := (digitsVal ip : ℚ)
    match cs2 with
    | '.' :: cs3 =>
      let fp := cs3.takeWhile (fun c => c.isDigit)
      if fp.isEmpty then .error .jsonError
      else do
        let er ← jsonExp (cs3.drop fp.length)
        let base : ℚ := n + (digitsVal fp : ℚ) / (10 : ℚ) ^ fp.length
        let q : ℚ := (if sr.1 then -base else base) * (10 : ℚ) ^ (er.1.getD 0)
        .ok (.jnum q, er.2)
    | _ => do
      let er ← jsonExp cs2
      match er.1 with
      | some e => .ok (.jnum ((if sr.1 then -n else n) * (10 : ℚ) ^ e), er.2)
      | none =>
        .ok (.jint (if sr.1 then -(digitsVal ip : Int) else (digitsVal ip : Int)), er.2)

mutual

/-- JSON value at the current position. -/
def jsonVal : Nat → List Char → Except PyErr (JVal × List Char)
  | 0, _ => .error .fuelOut
  | fuel + 1, cs =>
    match jsonSkipWS cs with
    | '\x7b' :: rest =>
      match jsonSkipWS rest with
      | '\x7d' :: rest2 => .ok (.jobj [], rest2)
      | _ => jsonObjItems fuel rest []
    | '[' :: rest =>
      match jsonSkipWS rest with
      | ']' :: rest2 => .ok (.jarr [], rest2)
      | _ => jsonArrItems fuel rest []
    | '"' :: rest => do
      let sr ← jsonStringGo (rest.length + 1) rest
      .ok (.jstr (String.mk sr.1), sr.2)
    | 't' :: 'r' :: 'u' :: 'e' :: rest => .ok (.jbool true, rest)
    | 'f' :: 'a' :: 'l' :: 's' :: 'e' :: rest => .ok (.jbool false, rest)
    | 'n' :: 'u' :: 'l' :: 'l' :: rest => .ok (.jnull, rest)
    | other => jsonNumber other

/-- Comma-separated items of a JSON array up to the closing bracket. -/
def jsonArrItems : Nat → List Char → List JVal → Except PyErr (JVal × List Char)
  | 0, _, _ => .error .fuelOut
  | fuel + 1, cs, acc => do
    let vr ← jsonVal fuel cs
    match jsonSkipWS vr.2 with
    | ',' :: rest => jsonArrItems fuel rest (acc ++ [vr.1])
    | ']' :: rest => .ok (.jarr (acc ++ [vr.1]), rest)
    | _ => .error .jsonError

/-- Comma-separated members of a JSON object up to the closing brace. -/
def jsonObjItems : Nat → List Char → List (String × JVal) → Except PyErr (JVal × List Char)
  | 0, _, _ => .error .fuelOut
  | fuel + 1, cs, acc =>
    match jsonSkipWS cs with
    | '"' :: rest => do
      let kr ← jsonStringGo (rest.length + 1) rest
      match jsonSkipWS kr.2 with
      | ':' :: rest2 => do
        let vr ← jsonVal fuel rest2
        match jsonSkipWS vr.2 with
        | ',' :: rest3 => jsonObjItems fuel rest3 (acc ++ [(String.mk kr.1, vr.1)])
        | '\x7d' :: rest3 => .ok (.jobj (acc ++ [(String.mk kr.1, vr.1)]), rest3)
        | _ => .error .jsonError
      | _ => .error .jsonError
    | _ => .error .jsonError

end

/-- Python json.loads(s): one JSON value followed only by whitespace;
failures raise json.JSONDecodeError, a ValueError subclass caught by the
parse-level except blocks. -/
def jsonLoads (s : String) : Except PyErr JVal := do
  let vr ← jsonVal (2 * s.length + 8) s.toList
  if (jsonSkipWS vr.2).isEmpty then .ok vr.1 else .error .jsonError

/-! PostgresParser (parsers.py lines 470-704). -/

/-- Values loop of _extract_plan_json (parsers.py lines 554-562): the
first string value that starts (after stripping) with an open bracket and
decodes, or the first list value; decode failures inside this loop are
caught locally and the loop continues. -/
def valuesScan : List (String × JVal) → Option JVal
  | [] => none
  | (_, v) :: rest =>
    match v with
    | .jstr s =>
      if listStartsWith "[".toList (pyStrip s).toList then
        match jsonLoads s with
        | .ok j => some j
        | .error _ => valuesScan rest
      else valuesScan rest
    | .jarr xs => some (.jarr xs)
    | _ => valuesScan rest

/-- PostgresParser._extract_plan_json (parsers.py lines 541-569); the only
statements that can raise are the json.loads calls outside the values
loop. -/
def extractPlanJson (explain_output : JVal) : Except PyErr (Option JVal) :=
  match explain_output with
  | .jarr (first :: _) =>
    match first with
    | .jobj fields =>
      if (lookupField fields "Plan").isSome then .ok (some (.jarr [first]))
      else
        match lookupField fields "QUERY PLAN" with
        | some (.jstr s) => (jsonLoads s).map some
        | some v => .ok (some v)
        | none => .ok (valuesScan fields)
    | .jstr s => (jsonLoads s).map some
    | _ => .ok none
  | .jstr s => (jsonLoads s).map some
  | _ => .ok none

/-- Python equality test of a value against a string literal. -/
def jeqStr (v : JVal) (s : String) : Bool :=
  match v with
  | .jstr t => t = s
  | _ => false

/-- Python comparison value > n against an int literal: numeric operands
compare numerically, anything else raises TypeError. -/
def jGtInt (v : JVal) (n : Int) : Except PyErr Bool :=
  (jNum v).map (fun q => q > (n : ℚ))

/-- Python float(x): floats pass through, ints and bools widen, strings
are parsed (digit-and-dot forms; exponent and special forms are not
modelled, no claim exercises them), everything else raises TypeError. -/
def pyFloat : JVal → Except PyErr ℚ
  | .jnum q => .ok q
  | .jint n => .ok (n : ℚ)
  | .jbool b => .ok (if b then 1 else 0)
  | .jstr s => pyFloatOfDotString s
  | _ => .error .typeError

/-- Python format_rows applied to the raw Plan Rows object inside the
sequential-scan warning: the int branch is the one reached by well-formed
plans; the float branch approximates repr-based rendering; other shapes
are unreachable because the threshold comparison raised first. -/
def rowsLabelOfJ : JVal → String
  | .jint n => format_rows (some n)
  | .jnum q =>
    if q < 1000 then fmtFixed q 1
    else if q < 1000000 then fmtFixed (q / 1000) 1 ++ "K"
    else if q < 1000000000 then fmtFixed (q / 1000000) 1 ++ "M"
    else fmtFixed (q / 1000000000) 1 ++ "B"
  | v => jToPyStr v

/-- Sequential-scan warning of _parse_plan_node (parsers.py
lines 593-602). -/
def seqScanWarningJ (relation : String) (plan_rows : JVal) : Warning :=
  ⟨WarningSeverity.WARNING, "Sequential Scan",
    "Sequential scan on \x27" ++ relation ++ "\x27 (~" ++ rowsLabelOfJ plan_rows ++ " rows).",
    some "Consider adding an index or WHERE clause.", [relation]⟩

/-- Nested-loop warning of _parse_plan_node (parsers.py lines 605-615). -/
def cartesianProductWarning : Warning :=
  ⟨WarningSeverity.CRITICAL, "Cartesian Product",
    "Nested loop without join condition detected.",
    some "Add JOIN conditions to avoid cartesian product.", []⟩

mutual

/-- PostgresParser._parse_plan_node (parsers.py lines 571-623) with
CPython semantics: the error branch carries the warnings accumulated
before the raise because the Python list is mutated in place.  Fuel only
decreases when descending; every caller passes more than the plan is
deep. -/
def parsePlanNode : Nat → JVal → List Warning → Except (PyErr × List Warning) (Int × List Warning)
  | 0, _, ws => .error (.fuelOut, ws)
  | fuel + 1, node, ws =>
    match node with
    | .jobj _ =>
      let node_type := jgetD node "Node Type" (.jstr "")
      let plan_rows := jgetD node "Plan Rows" (.jint 0)
      let isScan := jeqStr node_type "Seq Scan" || jeqStr node_type "Index Scan" ||
        jeqStr node_type "Index Only Scan" || jeqStr node_type "Bitmap Heap Scan"
      let step1 : Except (PyErr × List Warning) (Int × List Warning) :=
        if isScan then
          match pyInt plan_rows with
          | .error e => .error (e, ws)
          | .ok rs =>
            let relation := jgetD node "Relation Name" (.jstr "unknown")
            if jeqStr node_type "Seq Scan" then
              match jGtInt plan_rows 100000 with
              | .error e => .error (e, ws)
              | .ok true => .ok (rs, ws ++ [seqScanWarningJ (jToPyStr relation) plan_rows])
              | .ok false => .ok (rs, ws)
            else .ok (rs, ws)
        else .ok (0, ws)
      match step1 with
      | .error e => .error e
      | .ok (rs, ws1) =>
        let ws2 :=
          if jeqStr node_type "Nested Loop" then
            let jf : Bool :=
              match jgetOpt node "Join Filter" with
              | some v => truthy v
              | none => false
            if jf then ws1 else ws1 ++ [cartesianProductWarning]
          else ws1
        if hasKey node "Plans" then
          match pyIterElems (jgetD node "Plans" .jnull) with
          | .error e => .error (e, ws2)
          | .ok children => parsePlanNodeKids fuel children rs ws2
        else .ok (rs, ws2)
    | _ => .error (.attributeError, ws)

/-- Child loop of _parse_plan_node (parsers.py lines 618-621). -/
def parsePlanNodeKids : Nat → List JVal → Int → List Warning → Except (PyErr × List Warning) (Int × List Warning)
  | 0, _, _, ws => .error (.fuelOut, ws)
  | _ + 1, [], acc, ws => .ok (acc, ws)
  | fuel + 1, c :: cs, acc, ws =>
    match parsePlanNode fuel c ws with
    | .error e => .error e
    | .ok (cr, ws2) => parsePlanNodeKids fuel cs (acc + cr) ws2

end

mutual

/-- PostgresParser._build_plan_tree (parsers.py lines 625-656).  The
details dict of the source holds only visualization data that no claim
inspects, so the model drops it; the int and float conversions at the
return statement run after the child recursion and can raise. -/
def buildPlanTreePG : Nat → JVal → Except PyErr PlanNode
  | 0, _ => .error .fuelOut
  | fuel + 1, node =>
    match node with
    | .jobj _ => do
      let node_type := jgetD node "Node Type" (.jstr "Unknown")
      let rows := jgetOpt node "Plan Rows"
      let cost := jgetOpt node "Total Cost"
      let children ←
        if hasKey node "Plans" then
          match pyIterElems (jgetD node "Plans" .jnull) with
          | .error e => .error e
          | .ok kids => buildPlanTreePGKids fuel kids
        else .ok []
      let rowsI : Option Int ←
        match rows with
        | none => pure none
        | some v => (pyInt v).map some
      let costQ : Option ℚ ←
        match cost with
        | none => pure none
        | some v => (pyFloat v).map some
      pure (PlanNode.mk (jToPyStr node_type) rowsI costQ none children)
    | _ => .error .attributeError

/-- Child loop of _build_plan_tree (parsers.py lines 645-648). -/
def buildPlanTreePGKids : Nat → List JVal → Except PyErr (List PlanNode)
  | 0, _ => .error .fuelOut
  | _ + 1, [] => .ok []
  | fuel + 1, c :: cs => do
    let n ← buildPlanTreePG fuel c
    let rest ← buildPlanTreePGKids fuel cs
    .ok (n :: rest)

end

/-- Critical cost warning of PostgresParser._generate_threshold_warnings
(parsers.py lines 685-693). -/
def veryHighCostWarning (c : ℚ) : Warning :=
  ⟨WarningSeverity.CRITICAL, "Very High Cost Query",
    "Query has cost of " ++ format_cost (some c) ++ " units.",
    some "Review query plan for optimization opportunities.", []⟩

/-- Non-critical cost warning of PostgresParser._generate_threshold_warnings
(parsers.py lines 694-702). -/
def highCostWarning (c : ℚ) : Warning :=
  ⟨WarningSeverity.WARNING, "High Cost Query",
    "Query has cost of " ++ format_cost (some c) ++ " units.",
    some "Consider adding indexes or filters.", []⟩

/-- PostgresParser._generate_threshold_warnings (parsers.py lines
658-704).  The rows argument is the plain int rows_scanned; the cost
argument is the numeric value of total_cost, already validated by the
metrics construction that precedes this call.  Python truthiness makes a
zero metric behave like an absent one. -/
def generateThresholdWarningsPG (rows : Int) (cost : Option ℚ) : List Warning :=
  let ws : List Warning := []
  let ws :=
    if rows ≠ 0 ∧ rows > ROWS_THRESHOLD_CRITICAL then ws ++ [veryLargeResultWarning rows]
    else if rows ≠ 0 ∧ rows > ROWS_THRESHOLD_HIGH then ws ++ [largeResultWarning rows]
    else ws
  match cost with
  | some c =>
    if c ≠ 0 ∧ c > COST_THRESHOLD_CRITICAL then ws ++ [veryHighCostWarning c]
    else if c ≠ 0 ∧ c > COST_THRESHOLD_HIGH then ws ++ [highCostWarning c]
    else ws
  | none => ws

/-- State of the local variables of PostgresParser.parse at the end of its
try/except block (parsers.py lines 485-506) with CPython assignment
semantics: a raise at a given statement keeps everything assigned by the
earlier statements, including in-place mutations of the warnings list.
failed is bookkeeping of the embedding recording that an exception was
caught; it does not influence the produced result. -/
structure PGTryState where
  rows_scanned : Int
  total_cost : Option JVal
  warnings : List Warning
  plan_tree : Option PlanNode
  failed : Bool

/-- Try/except block of PostgresParser.parse (parsers.py lines 490-506). -/
def pgTry (explain_output : JVal) : PGTryState :=
  match extractPlanJson explain_output with
  | .error _ => ⟨0, none, [], none, true⟩
  | .ok plan_json =>
    match plan_json with
    | some pj =>
      match pj with
      | .jarr (plan_data :: _) =>
        if isDict plan_data ∧ hasKey plan_data "Plan" then
          let plan := jgetD plan_data "Plan" .jnull
          match plan with
          | .jobj _ =>
            let total_cost := jgetOpt plan "Total Cost"
            match parsePlanNode (jsize plan + 1) plan [] with
            | .error er => ⟨0, total_cost, er.2, none, true⟩
            | .ok (rows, ws) =>
              match buildPlanTreePG (jsize plan + 1) plan with
              | .error _ => ⟨rows, total_cost, ws, none, true⟩
              | .ok t => ⟨rows, total_cost, ws, some t, false⟩
          | _ => ⟨0, none, [], none, true⟩
        else ⟨0, none, [], none, false⟩
      | _ => ⟨0, none, [], none, false⟩
    | none => ⟨0, none, [], none, false⟩

/-- PostgresParser.parse (parsers.py lines 484-539).  The code after the
try/except block is not exception-free: format_cost receives the raw
extracted Total Cost object, and its first comparison raises TypeError
when that object is neither absent nor numeric; that raise escapes parse.
The jNumOpt step models it, and the same numeric value then feeds the
cost label, the threshold warnings and the classifier call, whose cost
argument is the raw total_cost object in the source. -/
def pgParse (explain_output : JVal) (raw_plan : String) : Except PyErr EstimationResult := do
  let st := pgTry explain_output
  let costQ ← jNumOpt st.total_cost
  let metrics : EstimationMetrics :=
    { rows_estimated := if st.rows_scanned > 0 then some st.rows_scanned else none
      rows_label := if st.rows_scanned > 0 then format_rows (some st.rows_scanned) else "N/A"
      cost := costQ
      cost_label := format_cost costQ }
  let warnings := st.warnings ++ generateThresholdWarningsPG st.rows_scanned costQ
  let warnings := deduplicate_warnings warnings
  let resource_level :=
    calculate_resource_level
      (if st.rows_scanned > 0 then some st.rows_scanned else none) none none costQ
  pure ⟨resource_level, metrics, warnings, some raw_plan, st.plan_tree, EngineType.POSTGRES⟩

/-- Parser family an engine type is dispatched to; the source returns
class instances, which carry no state beyond their class. -/
inductive ParserKind where
  | trino
  | postgres
deriving DecidableEq, Repr

/-- get_parser from parsers.py lines 707-715: the else branch makes the
Trino family the default. -/
def get_parser_kind (engine_type : EngineType) : ParserKind :=
  if engine_type = EngineType.TRINO then ParserKind.trino
  else if engine_type = EngineType.POSTGRES then ParserKind.postgres
  else ParserKind.trino

/-- Python str.lower() (the identifiers dispatched on are ASCII). -/
def pyLower (s : String) : String := String.mk (s.toList.map Char.toLower)

/-- detect_engine_type from parsers.py lines 718-726. -/
def detect_engine_type (backend : String) : EngineType :=
  let backend_lower := pyLower backend
  if containsSub backend_lower "trino" ∨ containsSub backend_lower "presto" then
    EngineType.TRINO
  else if containsSub backend_lower "postgres" ∨ containsSub backend_lower "redshift" then
    EngineType.POSTGRES
  else EngineType.UNKNOWN

/-! Well-formed PostgreSQL EXPLAIN (FORMAT JSON) plan trees, the shapes
the database actually emits: every node carries a string Node Type, an
integer Plan Rows, a string Relation Name, an optional string Join Filter,
a numeric Total Cost and a list of child plans.  The embedding always
materializes all six keys: a Join Filter of null is indistinguishable from
an absent key for the .get access the parser performs, an empty Plans
array is indistinguishable from an absent key for its in-then-iterate
access, and Relation Name is only ever read inside the scan branch. -/

inductive PGTree where
  | mk (nodeType : String) (planRows : Int) (relName : String)
      (joinFilter : Option String) (totalCost : ℚ) (children : List PGTree)

/-- Node type of the root. -/
def PGTree.nodeType : PGTree → String
  | .mk ty _ _ _ _ _ => ty

/-- Plan Rows of the root. -/
def PGTree.planRows : PGTree → Int
  | .mk _ pr _ _ _ _ => pr

/-- Relation Name of the root. -/
def PGTree.relName : PGTree → String
  | .mk _ _ rel _ _ _ => rel

/-- Join Filter of the root. -/
def PGTree.joinFilter : PGTree → Option String
  | .mk _ _ _ jf _ _ => jf

/-- Children of the root. -/
def PGTree.children : PGTree → List PGTree
  | .mk _ _ _ _ _ kids => kids

mutual

/-- JSON object a well-formed plan tree denotes. -/
def PGTree.toJVal : PGTree → JVal
  | .mk ty pr rel jf c kids =>
    .jobj
      [("Node Type", .jstr ty), ("Plan Rows", .jint pr), ("Relation Name", .jstr rel),
       ("Join Filter", match jf with | none => .jnull | some s => .jstr s),
       ("Total Cost", .jnum c), ("Plans", .jarr (PGTree.toJValList kids))]

/-- JSON objects a list of well-formed plan trees denotes. -/
def PGTree.toJValList : List PGTree → List JVal
  | [] => []
  | t :: ts => PGTree.toJVal t :: PGTree.toJValList ts

end

/-- Node types classified as scans.  Modelled from the spec: Plan Rows is
summed only over sequential scan, index scan, index-only scan and bitmap
heap scan nodes. -/
def scanTypeNames : List String :=
  ["Seq Scan", "Index Scan", "Index Only Scan", "Bitmap Heap Scan"]

mutual

/-- Modelled from the spec: the sum of Plan Rows over exactly those nodes
of the whole tree whose node type is classified as a scan. -/
def scanRowsSum : PGTree → Int
  | .mk ty pr _ _ _ kids =>
    (if ty ∈ scanTypeNames then pr else 0) + scanRowsSumList kids

/-- Sum of scanRowsSum over a list of trees. -/
def scanRowsSumList : List PGTree → Int
  | [] => 0
  | t :: ts => scanRowsSum t + scanRowsSumList ts

end

/-- Truthiness of an optional Join Filter string as Python sees it after
node.get: absent and empty are falsy. -/
def jfTruthy : Option String → Bool
  | none => false
  | some s => s != ""

/-- Warnings the parser emits at one node of a well-formed tree. -/
def pgNodeWarns : PGTree → List Warning
  | .mk ty pr rel jf _ _ =>
    (if ty = "Seq Scan" ∧ pr > 100000 then [seqScanWarningJ rel (.jint pr)] else []) ++
    (if ty = "Nested Loop" ∧ jfTruthy jf = false then [cartesianProductWarning] else [])

mutual

/-- Warnings the parser emits over a whole well-formed tree, in emission
order: the node itself, then its children left to right. -/
def pgTreeWarns : PGTree → List Warning
  | .mk ty pr rel jf c kids =>
    pgNodeWarns (.mk ty pr rel jf c kids) ++ pgTreeWarnsList kids

/-- Warnings over a list of trees. -/
def pgTreeWarnsList : List PGTree → List Warning
  | [] => []
  | t :: ts => pgTreeWarns t ++ pgTreeWarnsList ts

end

mutual

/-- All nodes of a tree: the root followed by the nodes of the children. -/
def allNodes : PGTree → List PGTree
  | .mk ty pr rel jf c kids => .mk ty pr rel jf c kids :: allNodesList kids

/-- All nodes of a list of trees. -/
def allNodesList : List PGTree → List PGTree
  | [] => []
  | t :: ts => allNodes t ++ allNodesList ts

end

mutual

/-- Fuel sufficient for parsePlanNode on the denotation of a tree. -/
def pgtFuel : PGTree → Nat
  | .mk _ _ _ _ _ kids => 1 + pgtFuelKids kids

/-- Fuel sufficient for parsePlanNodeKids on the denotations of a list. -/
def pgtFuelKids : List PGTree → Nat
  | [] => 1
  | t :: ts => 1 + max (pgtFuel t) (pgtFuelKids ts)

end

/-! Theorems about calculate_resource_level (claims C1, C4, C5). -/

/-- Helper: a present memory value at or under the medium threshold makes
the memory block fall through. -/
theorem levelOfMemory_under (m : Int) (h : m ≤ MEMORY_THRESHOLD_MEDIUM) :
    levelOfMemory (some m) = none := by
  simp only [levelOfMemory, MEMORY_THRESHOLD_CRITICAL, MEMORY_THRESHOLD_HIGH,
    MEMORY_THRESHOLD_MEDIUM] at *
  split_ifs with h1 h2 h3
  · exfalso; omega
  · exfalso; omega
  · exfalso; omega
  · rfl

/-- Helper: a present time value at or under the medium threshold makes
the time block fall through. -/
theorem levelOfTime_under (t : ℚ) (h : t ≤ TIME_THRESHOLD_MEDIUM) :
    levelOfTime (some t) = none := by
  simp only [levelOfTime, TIME_THRESHOLD_CRITICAL, TIME_THRESHOLD_HIGH,
    TIME_THRESHOLD_MEDIUM] at *
  split_ifs with h1 h2 h3
  · exfalso; linarith
  · exfalso; linarith
  · exfalso; linarith
  · rfl

/-- Helper: a present rows value at or under the medium threshold makes
the rows block fall through. -/
theorem levelOfRows_under (r : Int) (h : r ≤ ROWS_THRESHOLD_MEDIUM) :
    levelOfRows (some r) = none := by
  simp only [levelOfRows, ROWS_THRESHOLD_CRITICAL, ROWS_THRESHOLD_HIGH,
    ROWS_THRESHOLD_MEDIUM] at *
  split_ifs with h1 h2 h3
  · exfalso; omega
  · exfalso; omega
  · exfalso; omega
  · rfl

/-- Helper: a present cost value at or under the medium threshold makes
the cost block fall through. -/
theorem levelOfCost_under (c : ℚ) (h : c ≤ COST_THRESHOLD_MEDIUM) :
    levelOfCost (some c) = none := by
  simp only [levelOfCost, COST_THRESHOLD_CRITICAL, COST_THRESHOLD_HIGH,
    COST_THRESHOLD_MEDIUM] at *
  split_ifs with h1 h2 h3
  · exfalso; linarith
  · exfalso; linarith
  · exfalso; linarith
  · rfl

/-- Claim C1 counterexample: memory present at 1 GiB (under every memory
threshold) together with cost 2e7 (over the critical cost threshold) does
not stop at the memory category with LOW; the function falls through and
classifies the cost as CRITICAL. -/
theorem C1_fall_through_counterexample :
    calculate_resource_level none none (some (1024 ^ 3)) (some 20000000) =
      ResourceLevel.CRITICAL ∧
    ResourceLevel.CRITICAL ≠ ResourceLevel.LOW := by
  constructor
  · rfl
  · decide

/-- Claim C1 amended: when the first present category exceeds none of its
thresholds, evaluation does not stop there; a present-but-under-threshold
category behaves exactly like an absent one and evaluation continues with
the later categories, so 1 GiB of memory together with cost 2e7 yields
CRITICAL, not LOW. -/
theorem C1_fall_through_amended :
    (∀ (rows : Option Int) (time : Option ℚ) (m : Int) (cost : Option ℚ),
      m ≤ MEMORY_THRESHOLD_MEDIUM →
        calculate_resource_level rows time (some m) cost =
          calculate_resource_level rows time none cost) ∧
    (∀ (rows : Option Int) (t : ℚ) (mem : Option Int) (cost : Option ℚ),
      t ≤ TIME_THRESHOLD_MEDIUM →
        calculate_resource_level rows (some t) mem cost =
          calculate_resource_level rows none mem cost) ∧
    (∀ (r : Int) (time : Option ℚ) (mem : Option Int) (cost : Option ℚ),
      r ≤ ROWS_THRESHOLD_MEDIUM →
        calculate_resource_level (some r) time mem cost =
          calculate_resource_level none time mem cost) ∧
    (∀ (rows : Option Int) (time : Option ℚ) (mem : Option Int) (c : ℚ),
      c ≤ COST_THRESHOLD_MEDIUM →
        calculate_resource_level rows time mem (some c) =
          calculate_resource_level rows time mem none) ∧
    calculate_resource_level none none (some (1024 ^ 3)) (some 20000000) =
      ResourceLevel.CRITICAL := by
  refine ⟨?_, ?_, ?_, ?_, rfl⟩
  · intro rows time m cost h
    simp only [calculate_resource_level, levelOfMemory_under m h]
    rfl
  · intro rows t mem cost h
    simp only [calculate_resource_level, levelOfTime_under t h]
    rfl
  · intro r time mem cost h
    simp only [calculate_resource_level, levelOfRows_under r h]
    rfl
  · intro rows time mem c h
    simp only [calculate_resource_level, levelOfCost_under c h]
    rfl

/-- Claim C1 amended, witness: instantiation at rows 5e6, memory 1 GiB,
time 10s, cost 5e4, all under their medium thresholds. -/
theorem C1_fall_through_witness :
    ((1024 : Int) ^ 3 ≤ MEMORY_THRESHOLD_MEDIUM ∧
      calculate_resource_level (some 5000000) (some 10000) (some (1024 ^ 3)) (some 50000) =
        calculate_resource_level (some 5000000) (some 10000) none (some 50000)) ∧
    ((10000 : ℚ) ≤ TIME_THRESHOLD_MEDIUM ∧
      calculate_resource_level (some 5000000) (some 10000) none (some 50000) =
        calculate_resource_level (some 5000000) none none (some 50000)) ∧
    ((5000000 : Int) ≤ ROWS_THRESHOLD_MEDIUM ∧
      calculate_resource_level (some 5000000) none none (some 50000) =
        calculate_resource_level none none none (some 50000)) ∧
    ((50000 : ℚ) ≤ COST_THRESHOLD_MEDIUM ∧
      calculate_resource_level none none none (some 50000) =
        calculate_resource_level none none none none) := by
  refine ⟨⟨by decide, ?_⟩, ⟨by norm_num [COST_THRESHOLD_MEDIUM, TIME_THRESHOLD_MEDIUM], ?_⟩,
    ⟨by decide, ?_⟩, ⟨by norm_num [COST_THRESHOLD_MEDIUM], ?_⟩⟩
  · exact C1_fall_through_amended.1 (some 5000000) (some 10000) (1024 ^ 3) (some 50000)
      (by decide)
  · exact C1_fall_through_amended.2.1 (some 5000000) 10000 none (some 50000)
      (by norm_num [TIME_THRESHOLD_MEDIUM])
  · exact C1_fall_through_amended.2.2.1 5000000 none none (some 50000) (by decide)
  · exact C1_fall_through_amended.2.2.2.1 none none none 50000
      (by norm_num [COST_THRESHOLD_MEDIUM])

/-- Claim C4: every threshold comparison of calculate_resource_level is
strictly greater-than: with all other categories absent, a metric exactly
equal to a threshold yields the tier below that threshold, and the
smallest exceeding value yields the threshold tier, at every boundary of
every category. -/
theorem C4_strict_thresholds :
    calculate_resource_level none none (some MEMORY_THRESHOLD_MEDIUM) none =
      ResourceLevel.LOW ∧
    calculate_resource_level none none (some (MEMORY_THRESHOLD_MEDIUM + 1)) none =
      ResourceLevel.MEDIUM ∧
    calculate_resource_level none none (some MEMORY_THRESHOLD_HIGH) none =
      ResourceLevel.MEDIUM ∧
    calculate_resource_level none none (some (MEMORY_THRESHOLD_HIGH + 1)) none =
      ResourceLevel.HIGH ∧
    calculate_resource_level none none (some MEMORY_THRESHOLD_CRITICAL) none =
      ResourceLevel.HIGH ∧
    calculate_resource_level none none (some (MEMORY_THRESHOLD_CRITICAL + 1)) none =
      ResourceLevel.CRITICAL ∧
    calculate_resource_level none (some TIME_THRESHOLD_MEDIUM) none none =
      ResourceLevel.LOW ∧
    calculate_resource_level none (some (TIME_THRESHOLD_MEDIUM + 1)) none none =
      ResourceLevel.MEDIUM ∧
    calculate_resource_level none (some TIME_THRESHOLD_HIGH) none none =
      ResourceLevel.MEDIUM ∧
    calculate_resource_level none (some (TIME_THRESHOLD_HIGH + 1)) none none =
      ResourceLevel.HIGH ∧
    calculate_resource_level none (some TIME_THRESHOLD_CRITICAL) none none =
      ResourceLevel.HIGH ∧
    calculate_resource_level none (some (TIME_THRESHOLD_CRITICAL + 1)) none none =
      ResourceLevel.CRITICAL ∧
    calculate_resource_level (some ROWS_THRESHOLD_MEDIUM) none none none =
      ResourceLevel.LOW ∧
    calculate_resource_level (some (ROWS_THRESHOLD_MEDIUM + 1)) none none none =
      ResourceLevel.MEDIUM ∧
    calculate_resource_level (some ROWS_THRESHOLD_HIGH) none none none =
      ResourceLevel.MEDIUM ∧
    calculate_resource_level (some (ROWS_THRESHOLD_HIGH + 1)) none none none =
      ResourceLevel.HIGH ∧
    calculate_resource_level (some ROWS_THRESHOLD_CRITICAL) none none none =
      ResourceLevel.HIGH ∧
    calculate_resource_level (some (ROWS_THRESHOLD_CRITICAL + 1)) none none none =
      ResourceLevel.CRITICAL ∧
    calculate_resource_level none none none (some COST_THRESHOLD_MEDIUM) =
      ResourceLevel.LOW ∧
    calculate_resource_level none none none (some (COST_THRESHOLD_MEDIUM + 1)) =
      ResourceLevel.MEDIUM ∧
    calculate_resource_level none none none (some COST_THRESHOLD_HIGH) =
      ResourceLevel.MEDIUM ∧
    calculate_resource_level none none none (some (COST_THRESHOLD_HIGH + 1)) =
      ResourceLevel.HIGH ∧
    calculate_resource_level none none none (some COST_THRESHOLD_CRITICAL) =
      ResourceLevel.HIGH ∧
    calculate_resource_level none none none (some (COST_THRESHOLD_CRITICAL + 1)) =
      ResourceLevel.CRITICAL := by
  refine ⟨?_, ?_, ?_, ?_, ?_, ?_, ?_, ?_, ?_, ?_, ?_, ?_, ?_, ?_, ?_, ?_, ?_, ?_,
    ?_, ?_, ?_, ?_, ?_, ?_⟩ <;>
    first
    | rfl
    | norm_num [calculate_resource_level, levelOfMemory, levelOfTime, levelOfRows,
        levelOfCost, MEMORY_THRESHOLD_CRITICAL, MEMORY_THRESHOLD_HIGH,
        MEMORY_THRESHOLD_MEDIUM, TIME_THRESHOLD_CRITICAL, TIME_THRESHOLD_HIGH,
        TIME_THRESHOLD_MEDIUM, ROWS_THRESHOLD_CRITICAL, ROWS_THRESHOLD_HIGH,
        ROWS_THRESHOLD_MEDIUM, COST_THRESHOLD_CRITICAL, COST_THRESHOLD_HIGH,
        COST_THRESHOLD_MEDIUM]

/-- Claim C5: when memory is present and exceeds the HIGH memory threshold
but not the CRITICAL one, the result is HIGH no matter how severely any
later category (time, rows, cost) is exceeded; in particular rows over the
CRITICAL rows threshold cannot override it. -/
theorem C5_category_precedence
    (mem rows : Int) (time cost : Option ℚ)
    (h1 : MEMORY_THRESHOLD_HIGH < mem) (h2 : mem ≤ MEMORY_THRESHOLD_CRITICAL)
    (h3 : ROWS_THRESHOLD_CRITICAL < rows) :
    calculate_resource_level (some rows) time (some mem) cost = ResourceLevel.HIGH := by
  have hmem : levelOfMemory (some mem) = some ResourceLevel.HIGH := by
    simp only [levelOfMemory, MEMORY_THRESHOLD_CRITICAL, MEMORY_THRESHOLD_HIGH,
      MEMORY_THRESHOLD_MEDIUM] at *
    split_ifs <;> first | rfl | (exfalso; omega)
  simp only [calculate_resource_level, hmem]

/-- Claim C5 witness: memory 300 GiB (HIGH tier) with rows 2e9 (over the
CRITICAL rows threshold) classifies as HIGH. -/
theorem C5_category_precedence_witness :
    MEMORY_THRESHOLD_HIGH < (300 : Int) * 1024 ^ 3 ∧
    (300 : Int) * 1024 ^ 3 ≤ MEMORY_THRESHOLD_CRITICAL ∧
    ROWS_THRESHOLD_CRITICAL < (2000000000 : Int) ∧
    calculate_resource_level (some 2000000000) none (some (300 * 1024 ^ 3)) none =
      ResourceLevel.HIGH :=
  ⟨by decide, by decide, by decide,
    C5_category_precedence (300 * 1024 ^ 3) 2000000000 none none
      (by decide) (by decide) (by decide)⟩

/-! Theorems about engine dispatch (claim C8). -/

/-- Helper: for a pattern that is already lowercase, the case-insensitive
containment test agrees with lowering the text first. -/
theorem ciContainsSub_eq_lower (b pat : String)
    (hp : pat.toList.map Char.toLower = pat.toList) :
    ciContainsSub b pat = containsSub (pyLower b) pat := by
  unfold ciContainsSub containsSub pyLower
  rw [show (String.mk (b.toList.map Char.toLower)).toList = b.toList.map Char.toLower
    from rfl, hp]

/-- Claim C8: detect_engine_type is a case-insensitive substring dispatch
(trino/presto to TRINO, else postgres/redshift to POSTGRES, else UNKNOWN),
illustrated on postgresql, apache-trino and sqlite, and get_parser maps
TRINO and the UNKNOWN fallback to the Trino family and POSTGRES to the
Postgres family. -/
theorem C8_engine_dispatch :
    (∀ b : String,
      ((ciContainsSub b "trino" ∨ ciContainsSub b "presto") →
        detect_engine_type b = EngineType.TRINO) ∧
      (¬ (ciContainsSub b "trino" ∨ ciContainsSub b "presto") →
        (ciContainsSub b "postgres" ∨ ciContainsSub b "redshift") →
        detect_engine_type b = EngineType.POSTGRES) ∧
      (¬ (ciContainsSub b "trino" ∨ ciContainsSub b "presto") →
        ¬ (ciContainsSub b "postgres" ∨ ciContainsSub b "redshift") →
        detect_engine_type b = EngineType.UNKNOWN)) ∧
    detect_engine_type "postgresql" = EngineType.POSTGRES ∧
    detect_engine_type "apache-trino" = EngineType.TRINO ∧
    detect_engine_type "sqlite" = EngineType.UNKNOWN ∧
    get_parser_kind EngineType.TRINO = ParserKind.trino ∧
    get_parser_kind EngineType.UNKNOWN = ParserKind.trino ∧
    get_parser_kind EngineType.POSTGRES = ParserKind.postgres := by
  refine ⟨?_, rfl, rfl, rfl, rfl, rfl, rfl⟩
  intro b
  rw [ciContainsSub_eq_lower b "trino" (by decide),
    ciContainsSub_eq_lower b "presto" (by decide),
    ciContainsSub_eq_lower b "postgres" (by decide),
    ciContainsSub_eq_lower b "redshift" (by decide)]
  unfold detect_engine_type
  refine ⟨fun h => ?_, fun h1 h2 => ?_, fun h1 h2 => ?_⟩
  · rw [if_pos h]
  · rw [if_neg h1, if_pos h2]
  · rw [if_neg h1, if_neg h2]

/-- Claim C8 witness: the trino branch instantiated on apache-trino. -/
theorem C8_engine_dispatch_witness :
    detect_engine_type "apache-trino" = EngineType.TRINO :=
  (C8_engine_dispatch.1 "apache-trino").1 (Or.inl (by decide))

/-! Theorems about the formatters (claim C9).  The formatted string of a
present value is never "N/A": every character it can contain is a digit,
a sign, a dot, a space or a unit letter, while "N/A" contains a slash. -/

/-- Helper: decimal digit characters are not a slash. -/
theorem digitChar_ne_slash (k : Nat) (hk : k < 10) : Nat.digitChar k ≠ '/' := by
  interval_cases k <;> decide

/-- Helper: toDigitsCore in base 10 only conses digit characters onto its
accumulator. -/
theorem toDigitsCore_no_slash :
    ∀ (f n : Nat) (acc : List Char), (∀ c ∈ acc, c ≠ '/') →
      ∀ c ∈ Nat.toDigitsCore 10 f n acc, c ≠ '/' := by
  intro f
  induction f with
  | zero => intro n acc hacc c hc; exact hacc c hc
  | succ f ih =>
    intro n acc hacc c hc
    simp only [Nat.toDigitsCore] at hc
    split at hc
    · rcases List.mem_cons.mp hc with h1 | h1
      · subst h1; exact digitChar_ne_slash _ (Nat.mod_lt _ (by norm_num))
      · exact hacc c h1
    · refine ih _ _ ?_ c hc
      intro c2 hc2
      rcases List.mem_cons.mp hc2 with h1 | h1
      · subst h1; exact digitChar_ne_slash _ (Nat.mod_lt _ (by norm_num))
      · exact hacc c2 h1

/-- Helper: the decimal rendering of a natural number has no slash. -/
theorem natStr_no_slash (n : Nat) : ∀ c ∈ (natStr n).toList, c ≠ '/' := by
  intro c hc
  exact toDigitsCore_no_slash (n + 1) n [] (by intro c2 h; cases h) c hc

/-- Helper: string append concatenates character lists. -/
theorem strData_append (s t : String) : (s ++ t).toList = s.toList ++ t.toList := rfl

/-- Helper: membership in an appended string. -/
theorem mem_append_str {c : Char} {s t : String} :
    c ∈ (s ++ t).toList ↔ c ∈ s.toList ∨ c ∈ t.toList := by
  rw [strData_append]; exact List.mem_append

/-- Helper: a string whose characters avoid the slash cannot be "N/A". -/
theorem ne_NA_of_no_slash (s : String) (h : ∀ c ∈ s.toList, c ≠ '/') : s ≠ "N/A" := by
  intro he
  apply h '/' _ rfl
  rw [he]
  decide

/-- Helper: slash-freedom from non-membership, for literal strings. -/
theorem no_slash_of_not_mem {s : String} (h : ¬ '/' ∈ s.toList) :
    ∀ c ∈ s.toList, c ≠ '/' := fun _ hc he => h (he ▸ hc)

/-- Helper: slash-freedom is preserved by append. -/
theorem append_no_slash {s t : String} (hs : ∀ c ∈ s.toList, c ≠ '/')
    (ht : ∀ c ∈ t.toList, c ≠ '/') : ∀ c ∈ (s ++ t).toList, c ≠ '/' := by
  intro c hc
  rcases mem_append_str.mp hc with h | h
  · exact hs c h
  · exact ht c h

/-- Helper: the integer rendering has no slash. -/
theorem intStr_no_slash (n : Int) : ∀ c ∈ (intStr n).toList, c ≠ '/' := by
  unfold intStr
  split_ifs
  · exact append_no_slash (no_slash_of_not_mem (by decide)) (natStr_no_slash _)
  · exact natStr_no_slash _

/-- Helper: zero padding has no slash when its payload has none. -/
theorem padZeros_no_slash (s : String) (w : Nat) (hs : ∀ c ∈ s.toList, c ≠ '/') :
    ∀ c ∈ (padZeros s w).toList, c ≠ '/' := by
  refine append_no_slash ?_ hs
  intro c hc
  have h2 := List.eq_of_mem_replicate (show c ∈ List.replicate (w - s.length) '0' from hc)
  subst h2; decide

/-- Helper: an optional minus sign has no slash. -/
theorem signStr_no_slash (p : Prop) [Decidable p] :
    ∀ c ∈ (if p then "-" else "" : String).toList, c ≠ '/' := by
  split_ifs <;> exact no_slash_of_not_mem (by decide)

/-- Helper: fixed-point rendering has no slash. -/
theorem fmtFixed_no_slash (q : ℚ) (prec : Nat) : ∀ c ∈ (fmtFixed q prec).toList, c ≠ '/' := by
  simp only [fmtFixed]
  by_cases hp : prec = 0
  · rw [if_pos hp]
    exact append_no_slash (signStr_no_slash _) (natStr_no_slash _)
  · rw [if_neg hp]
    exact append_no_slash
      (append_no_slash (append_no_slash (signStr_no_slash _) (natStr_no_slash _))
        (no_slash_of_not_mem (by decide)))
      (padZeros_no_slash _ _ (natStr_no_slash _))

/-- Helper: format_bytes of a present value is not "N/A". -/
theorem format_bytes_ne_NA (v : Int) : format_bytes (some v) ≠ "N/A" := by
  apply ne_NA_of_no_slash
  simp only [format_bytes]
  split_ifs <;>
    refine append_no_slash ?_ (no_slash_of_not_mem (by decide)) <;>
    first
    | exact intStr_no_slash _
    | exact fmtFixed_no_slash _ _

/-- Helper: format_rows of a present value is not "N/A". -/
theorem format_rows_ne_NA (v : Int) : format_rows (some v) ≠ "N/A" := by
  apply ne_NA_of_no_slash
  simp only [format_rows]
  split_ifs
  · exact intStr_no_slash _
  all_goals
    exact append_no_slash (fmtFixed_no_slash _ _) (no_slash_of_not_mem (by decide))

/-- Helper: format_time_ms of a present value is not "N/A". -/
theorem format_time_ms_ne_NA (v : ℚ) : format_time_ms (some v) ≠ "N/A" := by
  apply ne_NA_of_no_slash
  simp only [format_time_ms]
  split_ifs
  · exact no_slash_of_not_mem (by decide)
  all_goals
    exact append_no_slash (fmtFixed_no_slash _ _) (no_slash_of_not_mem (by decide))

/-- Helper: format_cost of a present value is not "N/A". -/
theorem format_cost_ne_NA (v : ℚ) : format_cost (some v) ≠ "N/A" := by
  apply ne_NA_of_no_slash
  simp only [format_cost]
  split_ifs
  · exact fmtFixed_no_slash _ _
  all_goals
    exact append_no_slash (fmtFixed_no_slash _ _) (no_slash_of_not_mem (by decide))

/-- Helper: the byte bracket is monotone. -/
theorem format_bytes_bracket_mono (x y : Int) (h : x ≤ y) :
    format_bytes_bracket x ≤ format_bytes_bracket y := by
  unfold format_bytes_bracket
  split_ifs <;> omega

/-- Helper: the rows bracket is monotone. -/
theorem format_rows_bracket_mono (x y : Int) (h : x ≤ y) :
    format_rows_bracket x ≤ format_rows_bracket y := by
  unfold format_rows_bracket
  split_ifs <;> omega

/-- Helper: the time bracket is monotone. -/
theorem format_time_ms_bracket_mono (x y : ℚ) (h : x ≤ y) :
    format_time_ms_bracket x ≤ format_time_ms_bracket y := by
  unfold format_time_ms_bracket
  split_ifs <;> linarith

/-- Helper: the cost bracket is monotone. -/
theorem format_cost_bracket_mono (x y : ℚ) (h : x ≤ y) :
    format_cost_bracket x ≤ format_cost_bracket y := by
  unfold format_cost_bracket
  split_ifs <;> linarith

/-- Claim C9: each formatter returns "N/A" exactly for an absent value,
and for present values the selected magnitude bracket is monotone
non-decreasing in the input. -/
theorem C9_formatter_totality_mono :
    (∀ v : Option Int, format_bytes v = "N/A" ↔ v = none) ∧
    (∀ v : Option Int, format_rows v = "N/A" ↔ v = none) ∧
    (∀ v : Option ℚ, format_time_ms v = "N/A" ↔ v = none) ∧
    (∀ v : Option ℚ, format_cost v = "N/A" ↔ v = none) ∧
    (∀ x y : Int, x ≤ y → format_bytes_bracket x ≤ format_bytes_bracket y) ∧
    (∀ x y : Int, x ≤ y → format_rows_bracket x ≤ format_rows_bracket y) ∧
    (∀ x y : ℚ, x ≤ y → format_time_ms_bracket x ≤ format_time_ms_bracket y) ∧
    (∀ x y : ℚ, x ≤ y → format_cost_bracket x ≤ format_cost_bracket y) := by
  refine ⟨?_, ?_, ?_, ?_, format_bytes_bracket_mono, format_rows_bracket_mono,
    format_time_ms_bracket_mono, format_cost_bracket_mono⟩
  · intro v
    cases v with
    | none => simp [format_bytes]
    | some x => simpa using format_bytes_ne_NA x
  · intro v
    cases v with
    | none => simp [format_rows]
    | some x => simpa using format_rows_ne_NA x
  · intro v
    cases v with
    | none => simp [format_time_ms]
    | some x => simpa using format_time_ms_ne_NA x
  · intro v
    cases v with
    | none => simp [format_cost]
    | some x => simpa using format_cost_ne_NA x

/-- Claim C9 witness: None formats to "N/A", 2048 bytes do not, and
bracket monotonicity instantiated across a tier boundary. -/
theorem C9_formatter_totality_mono_witness :
    (format_bytes none = "N/A" ↔ (none : Option Int) = none) ∧
    (format_bytes (some 2048) = "N/A" ↔ (some (2048 : Int)) = none) ∧
    format_bytes_bracket 500 ≤ format_bytes_bracket 2048 ∧
    format_cost_bracket 500 ≤ format_cost_bracket 2000 :=
  ⟨C9_formatter_totality_mono.1 none, C9_formatter_totality_mono.1 (some 2048),
    C9_formatter_totality_mono.2.2.2.2.1 500 2048 (by norm_num),
    C9_formatter_totality_mono.2.2.2.2.2.2.2 500 2000 (by norm_num)⟩

/-! Theorems about the Trino structural warnings (claim C6). -/

/-- Claim C6 counterexample: a plan text containing CrossJoin does not
always produce the Cartesian Join warning: when the memory estimate
extraction raises first (here float("1.2.3")), the exception is caught at
the parse level and the returned warnings are empty. -/
theorem C6_trino_warnings_counterexample :
    containsSub "Memory: 1.2.3MB CrossJoin" "CrossJoin" = true ∧
    (trinoParse (JVal.jstr "Memory: 1.2.3MB CrossJoin") "raw").warnings = [] := by
  exact ⟨by decide, rfl⟩

/-- Claim C6 amended: on every plan text on which the numeric extraction
of _parse_trino_plan returns (rather than raising), text containing
CrossJoin yields the CRITICAL Cartesian Join warning; text containing a
TableScan with a bracketed table identifier and no filterPredicate or
constraint token (case-insensitive) yields the Full Table Scan warning
holding the matched identifiers capped at 3; and a constraint token
anywhere suppresses the Full Table Scan warning. -/
theorem C6_trino_structural_warnings (p : String) (m r : Option Int) (ws2 : List Warning)
    (h : parseTrinoPlan p [] = Except.ok (m, r, ws2)) :
    (containsSub p "CrossJoin" = true → cartesianJoinWarning ∈ ws2) ∧
    (containsSub p "TableScan" = true → tsFindall p ≠ [] →
      ciContainsSub p "filterPredicate" = false → ciContainsSub p "constraint" = false →
      fullTableScanWarning ((tsFindall p).take 3) ∈ ws2) ∧
    (ciContainsSub p "constraint" = true → ∀ w ∈ ws2, w.title ≠ "Full Table Scan") := by
  have hso : ws2 = parseTrinoWarnStage p [] := by
    unfold parseTrinoPlan at h
    cases hm : parseTrinoMemory p.toList with
    | error e =>
      rw [hm] at h
      simp only [Bind.bind, Except.bind] at h
      cases h
    | ok mv =>
      cases hr : parseTrinoRows p.toList with
      | error e =>
        rw [hm, hr] at h
        simp only [Bind.bind, Except.bind, Functor.map, Except.map] at h
        cases h
      | ok rv =>
        rw [hm, hr] at h
        simp only [Bind.bind, Except.bind, Functor.map, Except.map, Pure.pure,
          Except.pure, Except.ok.injEq, Prod.mk.injEq] at h
        exact h.2.2.symm
  subst hso
  unfold parseTrinoWarnStage
  refine ⟨?_, ?_, ?_⟩
  · intro hcj
    rw [if_pos hcj]
    exact List.mem_append_right _ (List.mem_singleton.mpr rfl)
  · intro hts hne hfp hcon
    rw [if_pos hts]
    have hcond : ¬ (tsFindall p).isEmpty ∧
        ¬ (ciContainsSub p "filterPredicate" = true ∨ ciContainsSub p "constraint" = true) := by
      constructor
      · simpa [List.isEmpty_iff] using hne
      · rw [hfp, hcon]; simp
    rw [if_pos hcond]
    by_cases hcj : containsSub p "CrossJoin" = true
    · rw [if_pos hcj]
      exact List.mem_append_left _ (List.mem_append_right _ (List.mem_singleton.mpr rfl))
    · rw [if_neg hcj]
      exact List.mem_append_right _ (List.mem_singleton.mpr rfl)
  · intro hcon w hw
    have hcond : ¬ (¬ (tsFindall p).isEmpty ∧
        ¬ (ciContainsSub p "filterPredicate" = true ∨ ciContainsSub p "constraint" = true)) := by
      rw [hcon]; simp
    have hws1 :
        (if containsSub p "TableScan" = true then
          if ¬ (tsFindall p).isEmpty ∧
              ¬ (ciContainsSub p "filterPredicate" = true ∨ ciContainsSub p "constraint" = true)
          then ([] : List Warning) ++ [fullTableScanWarning ((tsFindall p).take 3)]
          else ([] : List Warning)
        else ([] : List Warning)) = ([] : List Warning) := by
      by_cases hts : containsSub p "TableScan" = true
      · rw [if_pos hts, if_neg hcond]
      · rw [if_neg hts]
    rw [hws1] at hw
    by_cases hcj : containsSub p "CrossJoin" = true
    · rw [if_pos hcj] at hw
      simp only [List.nil_append, List.mem_singleton] at hw
      subst hw
      decide
    · rw [if_neg hcj] at hw
      cases hw

/-- Claim C6 amended, witness: a concrete plan text with an unfiltered
table scan and a cross join receives both warnings. -/
theorem C6_trino_structural_warnings_witness :
    cartesianJoinWarning ∈
      [fullTableScanWarning ["orders"], cartesianJoinWarning] ∧
    fullTableScanWarning ["orders"] ∈
      [fullTableScanWarning ["orders"], cartesianJoinWarning] := by
  have h := C6_trino_structural_warnings "TableScan[table=orders x] CrossJoin" none none
    [fullTableScanWarning ["orders"], cartesianJoinWarning] (by rfl)
  refine ⟨h.1 (by decide), ?_⟩
  have h2 := h.2.1 (by decide) (by decide) (by decide) (by decide)
  simpa using h2

/-! Theorems about parse-failure behavior (claims C2 and C10). -/

/-- Input refuting claim C2: a Seq Scan node whose Plan Rows is the
string "abc" makes int() raise after Total Cost was already extracted. -/
def c2BadRowsInput : JVal :=
  .jarr [.jobj [("Plan", .jobj [("Node Type", .jstr "Seq Scan"),
    ("Plan Rows", .jstr "abc"), ("Total Cost", .jnum 5)])]]

/-- Claim C2 counterexample: on c2BadRowsInput an internal failure occurs
(the except block catches int("abc")), yet the returned result is not the
fully degraded one: the cost extracted before the failure is present. -/
theorem C2_parse_degradation_counterexample :
    (pgTry c2BadRowsInput).failed = true ∧
    (pgParse c2BadRowsInput "p").toOption.map (fun res => res.metrics.cost) =
      some (some 5) := by
  exact ⟨rfl, rfl⟩

/-- Claim C2 amended: both parsers absorb exceptions raised inside their
guarded interpretation block, but not more than that.  A Trino-side
failure in _parse_trino_plan (which runs before any assignment) yields the
fully degraded result: absent metrics with N/A labels, no warnings, no
tree, level LOW.  A Postgres-side failure in _extract_plan_json likewise
yields the fully degraded result.  A failure after partial extraction
retains the already-extracted values: the returned cost always reflects
the extracted Total Cost.  And parse is not exception-free: a non-numeric
extracted Total Cost raises TypeError outside the guarded block. -/
theorem C2_parse_degradation :
    (∀ (input : JVal) (raw : String) (e : PyErr),
      parseTrinoPlan (extractPlanText input) [] = Except.error e →
      trinoParse input raw =
        ⟨ResourceLevel.LOW, {}, [], some raw, none, EngineType.TRINO⟩) ∧
    (∀ (input : JVal) (raw : String) (e : PyErr),
      extractPlanJson input = Except.error e →
      pgParse input raw =
        Except.ok ⟨ResourceLevel.LOW, {}, [], some raw, none, EngineType.POSTGRES⟩) ∧
    (∀ (input : JVal) (raw : String) (res : EstimationResult) (qc : Option ℚ),
      pgParse input raw = Except.ok res → jNumOpt (pgTry input).total_cost = Except.ok qc →
      res.metrics.cost = qc) ∧
    pgParse (.jarr [.jobj [("Plan", .jobj [("Total Cost", .jstr "abc")])]]) "raw" =
      Except.error PyErr.typeError := by
  refine ⟨?_, ?_, ?_, rfl⟩
  · intro input raw e h
    have hst : trinoTry input = ⟨none, none, [], none, true⟩ := by
      unfold trinoTry
      by_cases hps : extractPlanText input = ""
      · exfalso
        rw [hps] at h
        have hok : parseTrinoPlan "" [] = Except.ok (none, none, []) := rfl
        rw [hok] at h
        cases h
      · rw [if_neg hps, h]
    unfold trinoParse
    rw [hst]
    rfl
  · intro input raw e h
    have hst : pgTry input = ⟨0, none, [], none, true⟩ := by
      unfold pgTry
      rw [h]
    unfold pgParse
    rw [hst]
    rfl
  · intro input raw res qc h hq
    simp only [pgParse] at h
    rw [hq] at h
    simp only [Bind.bind, Except.bind, Pure.pure, Except.pure, Except.ok.injEq] at h
    rw [← h]

/-- Claim C2 amended, witness: the Trino branch at the raising plan text
rows=, (int("") raises), the Postgres branch at the undecodable string
input, and the retention branch at c2BadRowsInput. -/
theorem C2_parse_degradation_witness :
    trinoParse (.jstr "rows=,") "x" =
      ⟨ResourceLevel.LOW, {}, [], some "x", none, EngineType.TRINO⟩ ∧
    pgParse (.jstr "not json") "y" =
      Except.ok ⟨ResourceLevel.LOW, {}, [], some "y", none, EngineType.POSTGRES⟩ ∧
    ((pgParse c2BadRowsInput "p").toOption.getD
        ⟨ResourceLevel.LOW, {}, [], none, none, EngineType.UNKNOWN⟩).metrics.cost =
      some 5 := by
  refine ⟨?_, ?_, ?_⟩
  · exact C2_parse_degradation.1 (.jstr "rows=,") "x" PyErr.valueError (by rfl)
  · exact C2_parse_degradation.2.1 (.jstr "not json") "y" PyErr.jsonError (by rfl)
  · have h := C2_parse_degradation.2.2.1 c2BadRowsInput "p"
      ((pgParse c2BadRowsInput "p").toOption.getD
        ⟨ResourceLevel.LOW, {}, [], none, none, EngineType.UNKNOWN⟩)
      (some 5) (by rfl) (by rfl)
    exact h

/-- Claim C10: whenever the summed scan-row count of the Postgres parser
is zero (no scan nodes, or extraction failed), the public result reports
the row count as absent: rows_estimated is None, the rows label is N/A,
and the classifier is invoked with the rows argument absent, so a zero
sum is indistinguishable from an absent row count at the interface. -/
theorem C10_zero_rows_absent
    (input : JVal) (raw : String) (res : EstimationResult) (qc : Option ℚ)
    (h0 : (pgTry input).rows_scanned = 0)
    (h : pgParse input raw = Except.ok res)
    (hq : jNumOpt (pgTry input).total_cost = Except.ok qc) :
    res.metrics.rows_estimated = none ∧
    res.metrics.rows_label = "N/A" ∧
    res.resource_level = calculate_resource_level none none none qc := by
  simp only [pgParse] at h
  rw [hq] at h
  simp only [Bind.bind, Except.bind, Pure.pure, Except.pure, Except.ok.injEq] at h
  rw [← h]
  rw [h0]
  exact ⟨rfl, rfl, rfl⟩

/-- Claim C10 witness: a lone Hash Join node (no scan nodes) with cost 10
yields an absent row count and a LOW classification through the cost
argument alone. -/
theorem C10_zero_rows_absent_witness :
    ((pgParse (.jarr [.jobj [("Plan", .jobj [("Node Type", .jstr "Hash Join"),
          ("Plan Rows", .jint 5000), ("Total Cost", .jnum 10)])]]) "z").toOption.getD
        ⟨ResourceLevel.CRITICAL, {}, [], none, none, EngineType.UNKNOWN⟩).metrics.rows_estimated =
      none ∧
    ((pgParse (.jarr [.jobj [("Plan", .jobj [("Node Type", .jstr "Hash Join"),
          ("Plan Rows", .jint 5000), ("Total Cost", .jnum 10)])]]) "z").toOption.getD
        ⟨ResourceLevel.CRITICAL, {}, [], none, none, EngineType.UNKNOWN⟩).resource_level =
      calculate_resource_level none none none (some 10) := by
  have h := C10_zero_rows_absent
    (.jarr [.jobj [("Plan", .jobj [("Node Type", .jstr "Hash Join"),
      ("Plan Rows", .jint 5000), ("Total Cost", .jnum 10)])]]) "z"
    ((pgParse (.jarr [.jobj [("Plan", .jobj [("Node Type", .jstr "Hash Join"),
        ("Plan Rows", .jint 5000), ("Total Cost", .jnum 10)])]]) "z").toOption.getD
      ⟨ResourceLevel.CRITICAL, {}, [], none, none, EngineType.UNKNOWN⟩)
    (some 10) (by rfl) (by rfl) (by rfl)
  exact ⟨h.1, h.2.2⟩

/-! Characterization of _parse_plan_node on well-formed plan trees
(claims C3 and C7). -/

/-- Helper: one unfolding of parsePlanNode on the denotation of a
well-formed node: the scan branch contributes its Plan Rows, the
structural warnings of the node are appended, and the children are
processed by the child loop. -/
theorem parsePlanNode_step (fuel : Nat) (ty : String) (pr : Int) (rel : String)
    (jf : Option String) (c : ℚ) (kids : List PGTree) (ws : List Warning) :
    parsePlanNode (fuel + 1) (PGTree.toJVal (.mk ty pr rel jf c kids)) ws =
      parsePlanNodeKids fuel (PGTree.toJValList kids)
        (if ty ∈ scanTypeNames then pr else 0)
        (ws ++ pgNodeWarns (.mk ty pr rel jf c kids)) := by
  have hget1 : jgetD (PGTree.toJVal (.mk ty pr rel jf c kids)) "Node Type" (.jstr "") =
      .jstr ty := rfl
  have hget2 : jgetD (PGTree.toJVal (.mk ty pr rel jf c kids)) "Plan Rows" (.jint 0) =
      .jint pr := rfl
  have hget3 : jgetD (PGTree.toJVal (.mk ty pr rel jf c kids)) "Relation Name"
      (.jstr "unknown") = .jstr rel := rfl
  have hget4 : jgetOpt (PGTree.toJVal (.mk ty pr rel jf c kids)) "Join Filter" =
      jf.map JVal.jstr := by cases jf <;> rfl
  have hget5 : hasKey (PGTree.toJVal (.mk ty pr rel jf c kids)) "Plans" = true := rfl
  have hget6 : jgetD (PGTree.toJVal (.mk ty pr rel jf c kids)) "Plans" .jnull =
      .jarr (PGTree.toJValList kids) := rfl
  have hjobj : ∃ fields, PGTree.toJVal (.mk ty pr rel jf c kids) = .jobj fields :=
    ⟨_, rfl⟩
  obtain ⟨fields, hfields⟩ := hjobj
  conv_lhs => rw [hfields]
  rw [show parsePlanNode (fuel + 1) (.jobj fields) ws =
      (let node_type := jgetD (.jobj fields) "Node Type" (.jstr "")
       let plan_rows := jgetD (.jobj fields) "Plan Rows" (.jint 0)
       let isScan := jeqStr node_type "Seq Scan" || jeqStr node_type "Index Scan" ||
         jeqStr node_type "Index Only Scan" || jeqStr node_type "Bitmap Heap Scan"
       let step1 : Except (PyErr × List Warning) (Int × List Warning) :=
         if isScan then
           match pyInt plan_rows with
           | .error e => .error (e, ws)
           | .ok rs =>
             let relation := jgetD (.jobj fields) "Relation Name" (.jstr "unknown")
             if jeqStr node_type "Seq Scan" then
               match jGtInt plan_rows 100000 with
               | .error e => .error (e, ws)
               | .ok true => .ok (rs, ws ++ [seqScanWarningJ (jToPyStr relation) plan_rows])
               | .ok false => .ok (rs, ws)
             else .ok (rs, ws)
         else .ok (0, ws)
       match step1 with
       | .error e => .error e
       | .ok (rs, ws1) =>
         let ws2 :=
           if jeqStr node_type "Nested Loop" then
             let a : Bool :=
               match jgetOpt (.jobj fields) "Join Filter" with
               | some v => truthy v
               | none => false
             if a then ws1 else ws1 ++ [cartesianProductWarning]
           else ws1
         if hasKey (.jobj fields) "Plans" then
           match pyIterElems (jgetD (.jobj fields) "Plans" .jnull) with
           | .error e => .error (e, ws2)
           | .ok children => parsePlanNodeKids fuel children rs ws2
         else .ok (rs, ws2)) from rfl]
  rw [← hfields]
  simp only [hget1, hget2, hget3, hget4, hget5, hget6]
  have hpy : pyInt (.jint pr) = .ok pr := rfl
  have hgt : jGtInt (.jint pr) 100000 = .ok (decide (pr > 100000)) := by
    unfold jGtInt jNum
    simp only [Except.map]
    congr 1
    rw [decide_eq_decide]
    constructor
    · intro hq
      exact_mod_cast hq
    · intro hq
      exact_mod_cast hq
  have hscan : (jeqStr (.jstr ty) "Seq Scan" || jeqStr (.jstr ty) "Index Scan" ||
      jeqStr (.jstr ty) "Index Only Scan" || jeqStr (.jstr ty) "Bitmap Heap Scan") =
      decide (ty ∈ scanTypeNames) := by
    simp only [jeqStr, scanTypeNames, List.mem_cons, List.not_mem_nil, or_false]
    rcases em (ty = "Seq Scan") with h | h <;>
    rcases em (ty = "Index Scan") with h2 | h2 <;>
    rcases em (ty = "Index Only Scan") with h3 | h3 <;>
    rcases em (ty = "Bitmap Heap Scan") with h4 | h4 <;>
      simp [h, h2, h3, h4]
  rw [hpy, hgt, hscan]
  simp only [jeqStr]
  by_cases hseq : ty = "Seq Scan"
  · subst hseq
    by_cases hbig : pr > 100000
    · rw [show decide (pr > 100000) = true by simpa using hbig]
      simp [pgNodeWarns, pyIterElems, scanTypeNames, hbig, jToPyStr]
    · rw [show decide (pr > 100000) = false by simpa using hbig]
      simp [pgNodeWarns, pyIterElems, scanTypeNames, hbig, jToPyStr]
  · by_cases hnl : ty = "Nested Loop"
    · subst hnl
      cases jf with
      | none => simp [pgNodeWarns, pyIterElems, scanTypeNames, jfTruthy, truthy]
      | some s =>
        by_cases hs : s = ""
        · subst hs
          simp [pgNodeWarns, pyIterElems, scanTypeNames, jfTruthy, truthy]
        · simp [pgNodeWarns, pyIterElems, scanTypeNames, jfTruthy, truthy, hs]
    · by_cases hmem : ty ∈ scanTypeNames
      · simp [pgNodeWarns, pyIterElems, hseq, hnl, hmem]
      · simp [pgNodeWarns, pyIterElems, hseq, hnl, hmem]

/-- Helper: with sufficient fuel, _parse_plan_node on the denotation of a
well-formed tree returns the scan-row sum together with the emitted
structural warnings appended to the incoming list, and the child loop
does the same for a list of trees. -/
theorem parsePlanNode_toJVal :
    ∀ fuel : Nat,
      (∀ (t : PGTree) (ws : List Warning), pgtFuel t ≤ fuel →
        parsePlanNode fuel (PGTree.toJVal t) ws =
          Except.ok (scanRowsSum t, ws ++ pgTreeWarns t)) ∧
      (∀ (ts : List PGTree) (acc : Int) (ws : List Warning), pgtFuelKids ts ≤ fuel →
        parsePlanNodeKids fuel (PGTree.toJValList ts) acc ws =
          Except.ok (acc + scanRowsSumList ts, ws ++ pgTreeWarnsList ts)) := by
  intro fuel
  induction fuel with
  | zero =>
    constructor
    · intro t ws h
      exfalso
      cases t
      simp [pgtFuel] at h
    · intro ts acc ws h
      exfalso
      cases ts <;> simp [pgtFuelKids] at h
  | succ fuel ih =>
    constructor
    · intro t ws hf
      obtain ⟨ty, pr, rel, jf, c, kids⟩ := t
      have hk : pgtFuelKids kids ≤ fuel := by
        simp only [pgtFuel] at hf
        omega
      rw [parsePlanNode_step]
      rw [ih.2 kids (if ty ∈ scanTypeNames then pr else 0)
        (ws ++ pgNodeWarns (.mk ty pr rel jf c kids)) hk]
      simp [scanRowsSum, pgTreeWarns, List.append_assoc]
    · intro ts acc ws hf
      cases ts with
      | nil =>
        simp [PGTree.toJValList, parsePlanNodeKids, scanRowsSumList, pgTreeWarnsList]
      | cons t ts =>
        have h1 : pgtFuel t ≤ fuel := by
          simp only [pgtFuelKids] at hf
          omega
        have h2 : pgtFuelKids ts ≤ fuel := by
          simp only [pgtFuelKids] at hf
          omega
        have hstep : parsePlanNodeKids (fuel + 1) (PGTree.toJVal t :: PGTree.toJValList ts)
            acc ws =
            match parsePlanNode fuel (PGTree.toJVal t) ws with
            | .error e => .error e
            | .ok (cr, ws2) => parsePlanNodeKids fuel (PGTree.toJValList ts) (acc + cr) ws2 :=
          rfl
        simp only [PGTree.toJValList]
        rw [hstep, ih.1 t ws h1]
        have hred : (match Except.ok (scanRowsSum t, ws ++ pgTreeWarns t) with
            | Except.error e => (Except.error e : Except (PyErr × List Warning) (Int × List Warning))
            | Except.ok (cr, ws2) =>
              parsePlanNodeKids fuel (PGTree.toJValList ts) (acc + cr) ws2) =
            parsePlanNodeKids fuel (PGTree.toJValList ts) (acc + scanRowsSum t)
              (ws ++ pgTreeWarns t) := rfl
        rw [hred, ih.2 ts (acc + scanRowsSum t) (ws ++ pgTreeWarns t) h2]
        simp [scanRowsSumList, pgTreeWarnsList, List.append_assoc, Int.add_assoc]

/-- Claim C3: on every well-formed PostgreSQL plan tree, _parse_plan_node
returns as rows_scanned exactly the sum of Plan Rows over the nodes whose
type is classified as a scan (Seq Scan, Index Scan, Index Only Scan,
Bitmap Heap Scan), across the whole tree, join and aggregate rows
excluded; the emitted warnings are appended to the incoming list. -/
theorem C3_pg_scan_rows_sum (fuel : Nat) (t : PGTree) (ws : List Warning)
    (h : pgtFuel t ≤ fuel) :
    parsePlanNode fuel (PGTree.toJVal t) ws =
      Except.ok (scanRowsSum t, ws ++ pgTreeWarns t) :=
  (parsePlanNode_toJVal fuel).1 t ws h

/-- Claim C3 witness: a Hash Join over Seq Scans of 1000 and 2000 rows
sums to 3000 (the join estimate of 999999 is excluded), and a lone Seq
Scan of 500000 rows yields 500000. -/
theorem C3_pg_scan_rows_sum_witness :
    parsePlanNode 5
      (PGTree.toJVal (.mk "Hash Join" 999999 "j" none 0
        [.mk "Seq Scan" 1000 "a" none 0 [], .mk "Seq Scan" 2000 "b" none 0 []])) [] =
      Except.ok (3000, []) ∧
    parsePlanNode 2 (PGTree.toJVal (.mk "Seq Scan" 500000 "big" none 0 [])) [] =
      Except.ok (500000, [seqScanWarningJ "big" (.jint 500000)]) := by
  constructor
  · exact (C3_pg_scan_rows_sum 5
      (.mk "Hash Join" 999999 "j" none 0
        [.mk "Seq Scan" 1000 "a" none 0 [], .mk "Seq Scan" 2000 "b" none 0 []]) []
      (by decide)).trans (by rfl)
  · exact (C3_pg_scan_rows_sum 2 (.mk "Seq Scan" 500000 "big" none 0 []) []
      (by decide)).trans (by rfl)

/-- Helper: structural induction principle for well-formed plan trees. -/
theorem PGTree.indOn {P : PGTree → Prop}
    (ind : ∀ ty pr rel jf c kids, (∀ x ∈ kids, P x) → P (.mk ty pr rel jf c kids)) :
    ∀ t, P t
  | .mk ty pr rel jf c kids =>
    ind ty pr rel jf c kids (fun x hx => PGTree.indOn ind x)
termination_by t => sizeOf t
decreasing_by
  simp_wf
  have := List.sizeOf_lt_of_mem hx
  omega

/-- Helper: membership in the warnings of a list of trees. -/
theorem pgTreeWarnsList_mem : ∀ (ts : List PGTree) (w : Warning),
    w ∈ pgTreeWarnsList ts ↔ ∃ x, x ∈ ts ∧ w ∈ pgTreeWarns x := by
  intro ts
  induction ts with
  | nil => intro w; simp [pgTreeWarnsList]
  | cons t ts iht =>
    intro w
    simp only [pgTreeWarnsList, List.mem_append, iht, List.mem_cons]
    constructor
    · rintro (h | ⟨x, hx, hw⟩)
      · exact ⟨t, Or.inl rfl, h⟩
      · exact ⟨x, Or.inr hx, hw⟩
    · rintro ⟨x, rfl | hx, hw⟩
      · exact Or.inl hw
      · exact Or.inr ⟨x, hx, hw⟩

/-- Helper: membership in the nodes of a list of trees. -/
theorem allNodesList_mem : ∀ (ts : List PGTree) (n : PGTree),
    n ∈ allNodesList ts ↔ ∃ x, x ∈ ts ∧ n ∈ allNodes x := by
  intro ts
  induction ts with
  | nil => intro n; simp [allNodesList]
  | cons t ts iht =>
    intro n
    simp only [allNodesList, List.mem_append, iht, List.mem_cons]
    constructor
    · rintro (h | ⟨x, hx, hn⟩)
      · exact ⟨t, Or.inl rfl, h⟩
      · exact ⟨x, Or.inr hx, hn⟩
    · rintro ⟨x, rfl | hx, hn⟩
      · exact Or.inl hn
      · exact Or.inr ⟨x, hx, hn⟩

/-- Helper: a warning is emitted over a tree exactly when some node of the
tree emits it. -/
theorem pgTreeWarns_mem : ∀ (t : PGTree) (w : Warning),
    w ∈ pgTreeWarns t ↔ ∃ n, n ∈ allNodes t ∧ w ∈ pgNodeWarns n := by
  intro t
  induction t using PGTree.indOn with
  | ind ty pr rel jf c kids IH =>
    intro w
    constructor
    · intro hw
      rcases List.mem_append.mp (by simpa [pgTreeWarns] using hw) with h1 | h1
      · exact ⟨.mk ty pr rel jf c kids, by simp [allNodes], h1⟩
      · obtain ⟨x, hx, hwx⟩ := (pgTreeWarnsList_mem kids w).mp h1
        obtain ⟨n, hn, hwn⟩ := (IH x hx w).mp hwx
        refine ⟨n, ?_, hwn⟩
        simp only [allNodes, List.mem_cons]
        exact Or.inr ((allNodesList_mem kids n).mpr ⟨x, hx, hn⟩)
    · rintro ⟨n, hn, hwn⟩
      simp only [allNodes, List.mem_cons] at hn
      rcases hn with rfl | hn
      · simp only [pgTreeWarns, List.mem_append]
        exact Or.inl hwn
      · obtain ⟨x, hx, hnx⟩ := (allNodesList_mem kids n).mp hn
        have hmem := (IH x hx w).mpr ⟨n, hnx, hwn⟩
        simp only [pgTreeWarns, List.mem_append]
        exact Or.inr ((pgTreeWarnsList_mem kids w).mpr ⟨x, hx, hmem⟩)

/-- Claim C7: over every well-formed plan tree, _parse_plan_node emits the
WARNING-severity Sequential Scan warning (naming the relation) for every
Seq Scan node with Plan Rows over 100000, emits the CRITICAL Cartesian
Product warning for every Nested Loop node lacking a truthy Join Filter,
and emits no Cartesian Product warning when every Nested Loop node has a
non-empty Join Filter. -/
theorem C7_pg_structural_warnings (fuel : Nat) (t : PGTree) (r : Int)
    (wsOut : List Warning) (h : pgtFuel t ≤ fuel)
    (hout : parsePlanNode fuel (PGTree.toJVal t) [] = Except.ok (r, wsOut)) :
    (∀ n ∈ allNodes t, n.nodeType = "Seq Scan" → n.planRows > 100000 →
      seqScanWarningJ n.relName (.jint n.planRows) ∈ wsOut) ∧
    (∀ n ∈ allNodes t, n.nodeType = "Nested Loop" → jfTruthy n.joinFilter = false →
      cartesianProductWarning ∈ wsOut) ∧
    ((∀ n ∈ allNodes t, n.nodeType = "Nested Loop" → jfTruthy n.joinFilter = true) →
      cartesianProductWarning ∉ wsOut) := by
  have hch := (parsePlanNode_toJVal fuel).1 t [] h
  rw [hout] at hch
  simp only [Except.ok.injEq, Prod.mk.injEq, List.nil_append] at hch
  obtain ⟨-, hws⟩ := hch
  subst hws
  refine ⟨?_, ?_, ?_⟩
  · intro n hn hty hpr
    apply (pgTreeWarns_mem t _).mpr
    refine ⟨n, hn, ?_⟩
    obtain ⟨ty, pr2, rel, jf, c, kids⟩ := n
    simp only [PGTree.nodeType] at hty
    simp only [PGTree.planRows] at hpr
    simp only [PGTree.nodeType, PGTree.planRows, PGTree.relName]
    simp only [pgNodeWarns, if_pos (And.intro hty hpr)]
    exact List.mem_append_left _ (List.mem_singleton.mpr rfl)
  · intro n hn hty hjf
    apply (pgTreeWarns_mem t _).mpr
    refine ⟨n, hn, ?_⟩
    obtain ⟨ty, pr2, rel, jf, c, kids⟩ := n
    simp only [PGTree.nodeType] at hty
    simp only [PGTree.joinFilter] at hjf
    simp only [pgNodeWarns]
    refine List.mem_append_right _ ?_
    rw [if_pos (And.intro hty hjf)]
    exact List.mem_singleton.mpr rfl
  · intro hall hmem
    obtain ⟨n, hn, hwn⟩ := (pgTreeWarns_mem t _).mp hmem
    have hnl := hall n hn
    obtain ⟨ty, pr2, rel, jf, c, kids⟩ := n
    simp only [PGTree.nodeType, PGTree.joinFilter] at hnl
    simp only [pgNodeWarns, List.mem_append] at hwn
    rcases hwn with h1 | h1
    · by_cases hcond : ty = "Seq Scan" ∧ pr2 > 100000
      · rw [if_pos hcond] at h1
        simp only [List.mem_singleton] at h1
        have : cartesianProductWarning.title = (seqScanWarningJ rel (.jint pr2)).title :=
          congrArg Warning.title h1
        simp [cartesianProductWarning, seqScanWarningJ] at this
      · rw [if_neg hcond] at h1
        cases h1
    · by_cases hcond : ty = "Nested Loop" ∧ jfTruthy jf = false
      · have := hnl hcond.1
        rw [this] at hcond
        cases hcond.2
      · rw [if_neg hcond] at h1
        cases h1

/-- Claim C7 witness: a Nested Loop without a join filter over a large
Seq Scan produces both warnings, while giving the Nested Loop a join
filter suppresses the Cartesian Product warning. -/
theorem C7_pg_structural_warnings_witness :
    seqScanWarningJ "events" (.jint 200000) ∈
      [cartesianProductWarning, seqScanWarningJ "events" (.jint 200000)] ∧
    cartesianProductWarning ∈
      [cartesianProductWarning, seqScanWarningJ "events" (.jint 200000)] ∧
    cartesianProductWarning ∉ [seqScanWarningJ "events" (.jint 200000)] := by
  have h1 := C7_pg_structural_warnings 4
    (.mk "Nested Loop" 7 "nl" none 0 [.mk "Seq Scan" 200000 "events" none 0 []])
    200000 [cartesianProductWarning, seqScanWarningJ "events" (.jint 200000)]
    (by decide) (by rfl)
  have h2 := C7_pg_structural_warnings 4
    (.mk "Nested Loop" 7 "nl" (some "a.id = b.id") 0
      [.mk "Seq Scan" 200000 "events" none 0 []])
    200000 [seqScanWarningJ "events" (.jint 200000)]
    (by decide) (by rfl)
  refine ⟨?_, ?_, ?_⟩
  · exact h1.1 (.mk "Seq Scan" 200000 "events" none 0 [])
      (by simp [allNodes, allNodesList]) rfl (by simp [PGTree.planRows])
  · exact h1.2.1 (.mk "Nested Loop" 7 "nl" none 0
        [.mk "Seq Scan" 200000 "events" none 0 []])
      (by simp [allNodes, allNodesList]) rfl rfl
  · refine h2.2.2 ?_
    intro n hn hty
    have hnodes : allNodes (.mk "Nested Loop" 7 "nl" (some "a.id = b.id") 0
        [.mk "Seq Scan" 200000 "events" none 0 []]) =
        [.mk "Nested Loop" 7 "nl" (some "a.id = b.id") 0
          [.mk "Seq Scan" 200000 "events" none 0 []],
          .mk "Seq Scan" 200000 "events" none 0 []] := by
      simp [allNodes, allNodesList]
    rw [hnodes] at hn
    simp only [List.mem_cons, List.not_mem_nil, or_false] at hn
    rcases hn with rfl | rfl
    · rfl
    · exact absurd hty (by simp [PGTree.nodeType])

end QE
